import Mathlib

/-!
Shallow embedding of the client-side form-validation engine
(`src/js/modules/class/_FormValidation.mjs`) and of the contact-submission
pipeline (`src/js/modules/_submitContact.mjs`), together with theorems
settling the specification claims about them.

Modelling conventions:
* A DOM form control is a `Control` record carrying exactly the attributes the
  code reads.  A form is the `List Control` produced by
  `form.querySelectorAll('input, textarea, select')`, in DOM enumeration
  order; a control's identity is its index in that list.
* JavaScript string `length` is modelled by `String.length` (they agree on the
  basic-multilingual-plane characters used throughout this code base) and
  `String.prototype.trim` by `jsTrim` below.
* `new RegExp(pattern).test(value)` is abstracted by the boolean field
  `Control.patternTest` (the claims under verification never depend on the
  regular-expression language itself, only on when the rule applies).
* The `JS Map` stored in `this.isInvalid` is modelled by an association list
  with JavaScript `Map.set` semantics: updating an existing key keeps its
  position, a new key is appended.  Iteration order of `for ... of` is the
  list order, i.e. insertion order, as in JavaScript.
* The error-display elements (`document.getElementById(errorId)`) are
  modelled as a total map from error id to text content; `classList` state of
  the controls is the set of indices carrying `is-error`.  The `<label>`
  elements are separate DOM nodes that carry no state any claim mentions, so
  their class toggling is not modelled.
-/

namespace FormApp

/-- One form control, with the attributes read by the two modules.
`minlengthAttr`/`maxlengthAttr` are `none` when the attribute is absent or
empty (both falsy to `getAttribute`), otherwise the parsed number;
`patternAttr` is the raw `pattern` attribute; `dataErrorMessage`,
`dataErrorId`, `dataRadioGroupError` are the corresponding `dataset` entries
with `""` standing for an absent (falsy) entry, and likewise `title`. -/
structure Control where
  type : String := "text"
  name : String := ""
  id : String := ""
  value : String := ""
  checked : Bool := false
  required : Bool := false
  minlengthAttr : Option Nat := none
  maxlengthAttr : Option Nat := none
  patternAttr : Option String := none
  patternTest : Bool := false
  title : String := ""
  dataErrorMessage : String := ""
  dataErrorId : String := ""
  dataRadioGroupError : String := ""
  deriving DecidableEq

/-- The character class `\s` of JavaScript regular expressions, which is also
the set of characters removed by `String.prototype.trim`. -/
def isWs (c : Char) : Bool :=
  c == ' ' || c == '\t' || c == '\n' || c == '\r' || c == '\x0b' || c == '\x0c' ||
  c == '\u00A0' || c == '\u1680' || ('\u2000' ≤ c && c ≤ '\u200A') ||
  c == '\u2028' || c == '\u2029' || c == '\u202F' || c == '\u205F' ||
  c == '\u3000' || c == '\uFEFF'

/-- JavaScript `String.prototype.trim`: drop leading and trailing whitespace. -/
def jsTrim (s : String) : String :=
  String.mk (((s.data.dropWhile isWs).reverse.dropWhile isWs).reverse)

/-- The generic required-field message of `validate.required`. -/
def requiredGenericMsg : String := "このフィールドは入力必須です。"

/-- `validate.minLength` (_FormValidation.mjs lines 14-23): applies only when a
`minlength` attribute is declared; fails when the trimmed value is shorter. -/
def minLengthRule (input : Control) : String :=
  match input.minlengthAttr with
  | none => ""
  | some minlength =>
    if minlength ≤ (jsTrim input.value).length then ""
    else toString minlength ++ "文字以上入力してください。"

/-- `validate.maxLength` (_FormValidation.mjs lines 30-38): applies only when a
`maxlength` attribute is declared; fails when the trimmed value is longer. -/
def maxLengthRule (input : Control) : String :=
  match input.maxlengthAttr with
  | none => ""
  | some maxlength =>
    if (jsTrim input.value).length ≤ maxlength then ""
    else toString maxlength ++ "文字以下で入力してください。"

/-- `validate.required` (_FormValidation.mjs lines 45-69).  The radio branch
queries the whole form for a checked radio of the same name. -/
def requiredRule (form : List Control) (input : Control) : String :=
  if !input.required then ""
  else if input.type == "checkbox" then
    if input.checked then "" else requiredGenericMsg
  else if input.type == "radio" then
    if (form.filter (fun i => i.type == "radio" && i.name == input.name && i.checked)).length != 0
    then "" else requiredGenericMsg
  else if jsTrim input.value == "" then
    if input.dataErrorMessage != "" then input.dataErrorMessage else requiredGenericMsg
  else ""

/-- `validate.pattern` (_FormValidation.mjs lines 76-90): applies only when a
non-empty `pattern` attribute and the `required` flag are both present. -/
def patternRule (input : Control) : String :=
  match input.patternAttr with
  | none => ""
  | some p =>
    if p == "" || !input.required then ""
    else if input.patternTest then ""
    else if input.title != "" then input.title
    else "指定されている形式で入力してください。"

/-- `result` (_FormValidation.mjs lines 98-108): keep the non-empty messages
and join them with `<br>`. -/
def result (messages : List String) : String :=
  String.intercalate "<br>" (messages.filter (fun msg => msg != ""))

/-- The `errorMessage` computed inside `getHandler` (lines 168-173): all four
rules are evaluated, in the order minLength, maxLength, required, pattern. -/
def controlMessage (form : List Control) (input : Control) : String :=
  result [minLengthRule input, maxLengthRule input, requiredRule form input, patternRule input]

/-- The message of the control at a given index of the form. -/
def messageAt (form : List Control) (idx : Nat) : String :=
  match form[idx]? with
  | some input => controlMessage form input
  | none => ""

/-- `getErrorId` (_FormValidation.mjs lines 115-127). -/
def getErrorId (input : Control) : String :=
  if input.dataRadioGroupError != "" then input.dataRadioGroupError
  else if input.dataErrorId != "" then input.dataErrorId ++ "-error"
  else input.id ++ "-error"

/-- Association-list update with JavaScript `Map.prototype.set` semantics:
an existing key keeps its position in iteration order, a new key is appended. -/
def assocSet {α β : Type} [DecidableEq α] (m : List (α × β)) (k : α) (v : β) :
    List (α × β) :=
  if m.any (fun p => p.1 == k) then m.map (fun p => if p.1 == k then (k, v) else p)
  else m ++ [(k, v)]

/-- Lookup in an association list (first entry wins, as in a JS `Map`). -/
def lookupA {α β : Type} [DecidableEq α] (m : List (α × β)) (k : α) : Option β :=
  (m.find? (fun p => p.1 == k)).map (fun p => p.2)

/-- The mutable state of the validation engine: the `this.isInvalid` map
(keyed by control index), the text content of every error-display element
(keyed by error id, absent id meaning empty text), and the set of control
indices whose `classList` contains `is-error`. -/
structure EngineState where
  isInvalid : List (Nat × Bool) := []
  errorDom : List (String × String) := []
  errorClass : List Nat := []
  deriving DecidableEq

/-- `classList.add('is-error')` on one control. -/
def addClass (classes : List Nat) (idx : Nat) : List Nat :=
  if idx ∈ classes then classes else classes ++ [idx]

/-- `classList.remove('is-error')` on a set of controls. -/
def removeClasses (classes : List Nat) (targets : List Nat) : List Nat :=
  classes.filter (fun i => decide (i ∉ targets))

/-- Indices of `form.querySelectorAll('input[type="radio"][name="..."]')`. -/
def radioGroupIdxs (form : List Control) (input : Control) : List Nat :=
  (List.range form.length).filter (fun i =>
    match form[i]? with
    | some c => c.type == "radio" && c.name == input.name
    | none => false)

/-- `resetInputErrorState` (_FormValidation.mjs lines 134-160): clears the
error element of the control and removes `is-error` from the control (from
every same-name radio when the control is a radio). -/
def resetInputErrorState (form : List Control) (st : EngineState) (idx : Nat)
    (input : Control) : EngineState :=
  let inputElms := if input.type == "radio" then radioGroupIdxs form input else [idx]
  { st with
    errorDom := assocSet st.errorDom (getErrorId input) ""
    errorClass := removeClasses st.errorClass inputElms }

/-- `getHandler` (_FormValidation.mjs lines 162-202), acting on the control at
index `idx`.  `isValid` starts `true` and is then set to
`errorMessage === ''`, exactly as in the source; the inner branch for
`!isValid` with an empty `errorMessage` (lines 193-197) first sets the map
entry to `true` and adds the class, then overwrites the entry with `false`
and removes the class, leaving the error element untouched. -/
def getHandler (form : List Control) (st : EngineState) (idx : Nat) : EngineState :=
  match form[idx]? with
  | none => st
  | some input =>
    let errorId := getErrorId input
    let errorMessage := controlMessage form input
    let isValid := errorMessage == ""
    if !isValid then
      if errorMessage != "" then
        { isInvalid := assocSet st.isInvalid idx true
          errorDom := assocSet st.errorDom errorId errorMessage
          errorClass := addClass st.errorClass idx }
      else
        { isInvalid := assocSet (assocSet st.isInvalid idx true) idx false
          errorDom := st.errorDom
          errorClass := removeClasses (addClass st.errorClass idx) [idx] }
    else
      { resetInputErrorState form st idx input with
        isInvalid := assocSet st.isInvalid idx false }

/-- Engine state right after `attach` (`init`): empty map, no error text, no
error classes. -/
def initState : EngineState := {}

/-- A sequence of `input` events, each re-evaluating its target control
(_FormValidation.mjs lines 210-214). -/
def runInputEvents (form : List Control) (events : List Nat) : EngineState :=
  events.foldl (getHandler form) initState

/-- Observable outcome of one click on the submit button. -/
structure SubmitOutcome where
  state : EngineState
  preventedDefault : Bool
  focused : Option Nat
  submitted : Bool
  handedOff : Option (List Control)
  deriving DecidableEq

/-- The submit-click handler (_FormValidation.mjs lines 216-233): always
prevents the default action, re-runs `getHandler` on every control in
enumeration order, then walks `this.isInvalid` in `Map` iteration order and
focuses the first entry whose state is `true`, aborting; otherwise hands the
form to `submitContact`. -/
def submitClick (form : List Control) (st : EngineState) : SubmitOutcome :=
  let st1 := (List.range form.length).foldl (getHandler form) st
  match st1.isInvalid.find? (fun p => p.2) with
  | some p =>
    { state := st1, preventedDefault := true, focused := some p.1,
      submitted := false, handedOff := none }
  | none =>
    { state := st1, preventedDefault := true, focused := none,
      submitted := true, handedOff := some form }

/-- The first control index, in DOM enumeration order, whose evaluation is
invalid (used to state the specification's focus requirement). -/
def firstInvalidIdx (form : List Control) : Option Nat :=
  (List.range form.length).find? (fun i => messageAt form i != "")

/-! ### Submission pipeline (`_submitContact.mjs`) -/

/-- The six mutable collection variables of `submitContact`. -/
structure Collected where
  type : String := ""
  name : String := ""
  companyName : String := ""
  email : String := ""
  detail : String := ""
  adv : String := ""
  deriving DecidableEq

/-- One step of the `inputs.forEach` loop inside `getValues`
(_submitContact.mjs lines 13-64): a `switch (true)` takes its first matching
case, so a control of type `radio` is handled entirely by the first case
(which inspects only `value`, never `checked` and never `name`), and the
name-based cases apply only to non-radio controls. -/
def getValuesStep (acc : Collected) (input : Control) : Collected :=
  if input.type == "radio" then
    if input.value == "radio01" then { acc with type := "お仕事のご依頼・ご相談" }
    else if input.value == "radio02" then { acc with type := "お見積りのご依頼" }
    else if input.value == "radio03" then { acc with type := "採用について" }
    else if input.value == "radio04" then { acc with type := "その他" }
    else acc
  else if input.name == "name" then { acc with name := input.value }
  else if input.name == "companyName" then { acc with companyName := input.value }
  else if input.name == "email" then { acc with email := input.value }
  else if input.name == "detail" then { acc with detail := input.value }
  else if input.name == "adv" then
    if input.value == "search" then { acc with adv := "Google/Yahoo検索" }
    else if input.value == "sns" then { acc with adv := "SNS" }
    else if input.value == "friends" then { acc with adv := "友人や知人" }
    else if input.value == "blog" then { acc with adv := "ブログ" }
    else if input.value == "other" then { acc with adv := "その他" }
    else acc
  else acc

/-- `getValues` (_submitContact.mjs lines 10-65): fold the step over the
form's controls in enumeration order, starting from empty strings. -/
def getValues (form : List Control) : Collected :=
  form.foldl getValuesStep {}

/-- Attempt of the alternative `\s+$` (multiline) at the current position:
`\s+` greedily takes the maximal whitespace run and backtracks until `$`
holds, i.e. until the next character is a newline or the end of input.  The
returned value is the matched length (the longest `k ≥ 1` such that the
first `k` characters are whitespace and position `k` is the end of the
input or holds a newline), `none` when the alternative cannot match. -/
def matchWsDollar (l : List Char) : Option Nat :=
  if (l.takeWhile isWs).length == 0 then none
  else if (l.takeWhile isWs).length == l.length then some l.length
  else ((List.range (l.takeWhile isWs).length).filter
      (fun k => k != 0 && (l.getD k ' ') == '\n')).getLast?

/-- The global multiline replacement `.replace(/^\n|\s+$|^ {4}/gm, '')`
(_submitContact.mjs line 80) as a left-to-right scan over the original
characters: at each position the alternatives are tried in order (`^\n`,
then `\s+$`, then `^ {4}`), a match is deleted and scanning resumes after
it, otherwise the character is kept.  `prev` is the original character
preceding the current position (`none` at the start), so `^` holds exactly
when `prev` is `none` or a newline. -/
def lineStartB (prev : Option Char) : Bool :=
  prev == none || prev == some '\n'

def replLoopF : Nat → Option Char → List Char → List Char
  | 0, _, l => l
  | _ + 1, _, [] => []
  | fuel + 1, prev, c :: rest =>
    if lineStartB prev && c == '\n' then
      replLoopF fuel (some '\n') rest
    else
      match matchWsDollar (c :: rest) with
      | some k => replLoopF fuel (some ((c :: rest).getD (k - 1) ' ')) (rest.drop (k - 1))
      | none =>
        if lineStartB prev && (c :: rest).take 4 == [' ', ' ', ' ', ' '] then
          replLoopF fuel (some ' ') (rest.drop 3)
        else
          c :: replLoopF fuel (some c) rest

/-- The scan itself: every step consumes at least one character, so fuel
equal to the length of the remaining input always suffices (made precise by
`replLoopF_fuel_eq` below). -/
def replLoop (prev : Option Char) (l : List Char) : List Char :=
  replLoopF l.length prev l

/-- String form of the template replacement. -/
def jsReplace (s : String) : String := String.mk (replLoop none s.data)

/-- The raw template literal of `fetchValues` (_submitContact.mjs lines
71-80) before the `replace`: every interpolated line is indented with six
spaces, the literal starts with a newline and ends with a six-space line,
and the company name falls back to `記入なし` exactly when it is the empty
string (the only falsy string). -/
def rawText (c : Collected) : String :=
  "\n      お問い合わせがありました。\n      PON DESIGNをどちらでお知りになりましたか？：" ++ c.adv
  ++ "\n      お問合せ種別：" ++ c.type
  ++ "\n      お名前：" ++ c.name
  ++ "\n      会社名：" ++ (if c.companyName == "" then "記入なし" else c.companyName)
  ++ "\n      メールアドレス：" ++ c.email
  ++ "\n      【お問合せ内容】\n      " ++ c.detail
  ++ "\n      "

/-- The `text` field of the payload: template then replacement. -/
def buildText (c : Collected) : String := jsReplace (rawText c)

/-- One hexadecimal digit as produced by `JSON.stringify` (lower case). -/
def hexDigit (n : Nat) : Char :=
  if n < 10 then Char.ofNat (48 + n) else Char.ofNat (87 + n)

/-- `JSON.stringify` escaping of one character of a string value. -/
def jsonEscapeChar (c : Char) : String :=
  if c == '"' then "\\\""
  else if c == '\\' then "\\\\"
  else if c == '\n' then "\\n"
  else if c == '\r' then "\\r"
  else if c == '\t' then "\\t"
  else if c == '\x08' then "\\b"
  else if c == '\x0c' then "\\f"
  else if c.toNat < 32 then "\\u00" ++ String.mk [hexDigit (c.toNat / 16), hexDigit (c.toNat % 16)]
  else String.singleton c

/-- `JSON.stringify` of a string value. -/
def jsonQuote (s : String) : String :=
  "\"" ++ String.join (s.data.map jsonEscapeChar) ++ "\""

/-- `JSON.stringify(payload)` where `payload = { text: ... }`: a JSON object
with exactly the one field `text`. -/
def payloadJson (text : String) : String :=
  "\x7b\"text\":" ++ jsonQuote text ++ "\x7d"

/-- The observable description of the network call made by `fetchValues`
(_submitContact.mjs lines 67-90): one POST of the JSON body to the fixed
URL, a fulfillment handler that alerts the fixed acknowledgment text, no
rejection handler, and no code that resets or clears the form. -/
structure SubmitRequest where
  url : String
  method : String
  body : String
  fulfilledAlert : String
  hasRejectionHandler : Bool
  resetsForm : Bool
  deriving DecidableEq

/-- `fetchValues` applied to the collected values. -/
def fetchValuesRequest (c : Collected) : SubmitRequest :=
  { url := "hogehogehogehoge"
    method := "POST"
    body := payloadJson (buildText c)
    fulfilledAlert := "送信が完了しました。追ってご連絡いたします！"
    hasRejectionHandler := false
    resetsForm := false }

/-- `submitContact` (_submitContact.mjs lines 1-97): collect the values from
the form, then issue the request. -/
def submitContact (form : List Control) : SubmitRequest :=
  fetchValuesRequest (getValues form)

/-- Promise semantics of `fetch(url, ...).then(() => alert(...))`: the
fulfillment handler runs exactly when the transport call succeeds, and the
chain registers no rejection handler, so nothing is surfaced on failure. -/
def userMessage (req : SubmitRequest) (transportOk : Bool) : Option String :=
  if transportOk then some req.fulfilledAlert else none

/-- A control with every `checked` flag cleared; two forms agree up to
checked state exactly when their `stripChecked` images agree. -/
def stripChecked (c : Control) : Control := { c with checked := false }

/-- The fixed inquiry-type value-to-label table of `getValues`. -/
def inquiryLabel (v : String) : Option String :=
  if v == "radio01" then some "お仕事のご依頼・ご相談"
  else if v == "radio02" then some "お見積りのご依頼"
  else if v == "radio03" then some "採用について"
  else if v == "radio04" then some "その他"
  else none

/-- A radio control whose value is one of the four inquiry-type values. -/
def isInquiryRadio (c : Control) : Bool :=
  c.type == "radio" && (inquiryLabel c.value).isSome

/-- Whether `pat` is an initial segment of `l`. -/
def leadsWith : List Char → List Char → Bool
  | [], _ => true
  | _ :: _, [] => false
  | p :: ps, c :: cs => p == c && leadsWith ps cs

/-- Whether `pat` occurs as a contiguous substring of `l`. -/
def hasSub (pat : List Char) : List Char → Bool
  | [] => leadsWith pat []
  | c :: cs => leadsWith pat (c :: cs) || hasSub pat cs

/-! ### Concrete example inputs used by witnesses and counterexamples -/

/-- Two required text fields, both blank (both invalid). -/
def vformC : List Control :=
  [{ name := "name", id := "nameC", required := true, value := "" },
   { name := "email", id := "emailC", required := true, value := "" }]

/-- One required text field with a non-blank value (valid). -/
def okFormC : List Control :=
  [{ name := "name", id := "nameOk", required := true, value := "山田太郎" }]

/-- A full contact form in the state of the specification's end-to-end
scenario: inquiry type `radio02` checked, referral source `blog` checked,
all text fields filled. -/
def contactFormC : List Control :=
  [{ type := "radio", name := "type", id := "r1", value := "radio01", required := true },
   { type := "radio", name := "type", id := "r2", value := "radio02", required := true,
     checked := true },
   { type := "radio", name := "type", id := "r3", value := "radio03", required := true },
   { type := "radio", name := "type", id := "r4", value := "radio04", required := true },
   { name := "name", id := "name", value := "山田太郎", required := true },
   { name := "companyName", id := "companyName", value := "ACME" },
   { name := "email", id := "email", value := "test@example.com", required := true },
   { type := "textarea", name := "detail", id := "detail", value := "hello", required := true },
   { type := "radio", name := "adv", id := "a1", value := "search" },
   { type := "radio", name := "adv", id := "a2", value := "sns" },
   { type := "radio", name := "adv", id := "a3", value := "friends" },
   { type := "radio", name := "adv", id := "a4", value := "blog", checked := true },
   { type := "radio", name := "adv", id := "a5", value := "other" }]

/-- The same form with different radio selections: inquiry type `radio01`
checked and referral source `search` checked. -/
def contactFormD : List Control :=
  [{ type := "radio", name := "type", id := "r1", value := "radio01", required := true,
     checked := true },
   { type := "radio", name := "type", id := "r2", value := "radio02", required := true },
   { type := "radio", name := "type", id := "r3", value := "radio03", required := true },
   { type := "radio", name := "type", id := "r4", value := "radio04", required := true },
   { name := "name", id := "name", value := "山田太郎", required := true },
   { name := "companyName", id := "companyName", value := "ACME" },
   { name := "email", id := "email", value := "test@example.com", required := true },
   { type := "textarea", name := "detail", id := "detail", value := "hello", required := true },
   { type := "radio", name := "adv", id := "a1", value := "search", checked := true },
   { type := "radio", name := "adv", id := "a2", value := "sns" },
   { type := "radio", name := "adv", id := "a3", value := "friends" },
   { type := "radio", name := "adv", id := "a4", value := "blog" },
   { type := "radio", name := "adv", id := "a5", value := "other" }]

/-- A required text control with a `minlength` constraint and a blank value:
the minLength rule and the required rule fail simultaneously. -/
def mlcControl : Control :=
  { id := "ml", required := true, minlengthAttr := some 5, value := " " }

/-- A radio group with no member checked: member `ra` is required, member
`rb` is not. -/
def rformC : List Control :=
  [{ type := "radio", name := "g", id := "ra", required := true, value := "1" },
   { type := "radio", name := "g", id := "rb", required := false, value := "2" }]

/-- Concrete collected values matching the end-to-end scenario. -/
def collectedC : Collected :=
  { type := "お見積りのご依頼", name := "山田太郎", companyName := "ACME",
    email := "test@example.com", detail := "hello", adv := "ブログ" }

/-- Collected values whose company name carries leading whitespace. -/
def collectedD : Collected :=
  { collectedC with companyName := " ABC" }

/-! ### Lemmas about the association-list map operations -/

theorem assocSet_of_contains {α β : Type} [DecidableEq α] (m : List (α × β)) (k : α) (v : β)
    (h : m.any (fun p => p.1 == k) = true) :
    assocSet m k v = m.map (fun p => if p.1 == k then (k, v) else p) := by
  simp [assocSet, h]

theorem assocSet_of_fresh {α β : Type} [DecidableEq α] (m : List (α × β)) (k : α) (v : β)
    (h : m.any (fun p => p.1 == k) = false) :
    assocSet m k v = m ++ [(k, v)] := by
  simp [assocSet, h]

theorem assocSet_idem {α β : Type} [DecidableEq α] (m : List (α × β)) (k : α) (v : β) :
    assocSet (assocSet m k v) k v = assocSet m k v := by
  by_cases h : m.any (fun p => p.1 == k) = true
  · rw [assocSet_of_contains m k v h]
    have h2 : (m.map (fun p => if p.1 == k then (k, v) else p)).any (fun p => p.1 == k) = true := by
      rcases List.any_eq_true.mp h with ⟨p, hp, hpk⟩
      exact List.any_eq_true.mpr ⟨(k, v), List.mem_map.mpr ⟨p, hp, by simp [hpk]⟩, by simp⟩
    rw [assocSet_of_contains _ k v h2, List.map_map]
    apply List.map_congr_left
    intro p _
    by_cases hpk : p.1 = k
    · simp [Function.comp, hpk]
    · simp [Function.comp, hpk]
  · rw [Bool.not_eq_true] at h
    rw [assocSet_of_fresh m k v h]
    have h2 : ((m ++ [(k, v)]).any (fun p => p.1 == k)) = true := by simp
    rw [assocSet_of_contains _ k v h2, List.map_append]
    have h3 : ∀ p ∈ m, (p.1 == k) = false := by
      intro p hp
      rcases List.any_eq_false.mp h p hp with h4
      simpa using h4
    congr 1
    · calc m.map (fun p => if p.1 == k then (k, v) else p)
          = m.map id := List.map_congr_left (by intro p hp; simp [h3 p hp])
        _ = m := List.map_id m
    · simp

theorem find?_key_map {α β : Type} [DecidableEq α] (m : List (α × β)) (k k' : α) (v : β)
    (hk : k' ≠ k) :
    (m.map (fun p => if p.1 == k then (k, v) else p)).find? (fun p => p.1 == k')
      = m.find? (fun p => p.1 == k') := by
  induction m with
  | nil => rfl
  | cons q m ih =>
    simp only [List.map_cons, List.find?_cons]
    by_cases hq : q.1 = k
    · rw [if_pos (show (q.1 == k) = true by simp [hq])]
      have h1 : ((k, v).1 == k') = false := by simp [Ne.symm hk]
      have h2 : (q.1 == k') = false := by simp [hq, Ne.symm hk]
      simp only [h1, h2]
      exact ih
    · rw [if_neg (show ¬(q.1 == k) = true by simp [hq])]
      by_cases hq' : q.1 = k'
      · have h1 : (q.1 == k') = true := by simp [hq']
        simp only [h1]
      · have h1 : (q.1 == k') = false := by simp [hq']
        simp only [h1]
        exact ih

theorem lookupA_assocSet_self {α β : Type} [DecidableEq α] (m : List (α × β)) (k : α) (v : β) :
    lookupA (assocSet m k v) k = some v := by
  by_cases h : m.any (fun p => p.1 == k) = true
  · rw [assocSet_of_contains m k v h]
    unfold lookupA
    induction m with
    | nil => simp at h
    | cons q m ih =>
      simp only [List.map_cons, List.find?_cons]
      by_cases hq : q.1 = k
      · rw [if_pos (show (q.1 == k) = true by simp [hq])]
        have h1 : ((k, v).1 == k) = true := by simp
        simp only [h1]
        rfl
      · rw [if_neg (show ¬(q.1 == k) = true by simp [hq])]
        have h1 : (q.1 == k) = false := by simp [hq]
        simp only [h1]
        have h' : m.any (fun p => p.1 == k) = true := by
          rcases List.any_eq_true.mp h with ⟨p, hp, hpk⟩
          rcases List.mem_cons.mp hp with rfl | hpm
          · simp [hq] at hpk
          · exact List.any_eq_true.mpr ⟨p, hpm, hpk⟩
        exact ih h'
  · rw [Bool.not_eq_true] at h
    rw [assocSet_of_fresh m k v h]
    unfold lookupA
    rw [List.find?_append]
    have h1 : m.find? (fun p => p.1 == k) = none := by
      rw [List.find?_eq_none]
      intro p hp
      simpa using List.any_eq_false.mp h p hp
    rw [h1]
    simp

theorem lookupA_assocSet_ne {α β : Type} [DecidableEq α] (m : List (α × β)) (k k' : α) (v : β)
    (hk : k' ≠ k) :
    lookupA (assocSet m k v) k' = lookupA m k' := by
  by_cases h : m.any (fun p => p.1 == k) = true
  · rw [assocSet_of_contains m k v h]
    unfold lookupA
    rw [find?_key_map m k k' v hk]
  · rw [Bool.not_eq_true] at h
    rw [assocSet_of_fresh m k v h]
    unfold lookupA
    rw [List.find?_append]
    have h1 : ([(k, v)] : List (α × β)).find? (fun p => p.1 == k') = none := by
      rw [List.find?_eq_none]
      intro p hp
      simp at hp
      simp [hp, Ne.symm hk]
    rw [h1]
    simp

theorem mem_assocSet {α β : Type} [DecidableEq α] {m : List (α × β)} {k : α} {v : β}
    {p : α × β} (h : p ∈ assocSet m k v) : p = (k, v) ∨ (p ∈ m ∧ p.1 ≠ k) := by
  by_cases hc : m.any (fun p => p.1 == k) = true
  · rw [assocSet_of_contains m k v hc] at h
    rcases List.mem_map.mp h with ⟨q, hq, hqe⟩
    by_cases hqk : q.1 = k
    · left
      rw [if_pos (by simp [hqk])] at hqe
      exact hqe.symm
    · right
      rw [if_neg (by simp [hqk])] at hqe
      exact ⟨hqe ▸ hq, hqe ▸ hqk⟩
  · rw [Bool.not_eq_true] at hc
    rw [assocSet_of_fresh m k v hc] at h
    rcases List.mem_append.mp h with hm | hnew
    · right
      refine ⟨hm, ?_⟩
      simpa using List.any_eq_false.mp hc p hm
    · left
      simpa using hnew

theorem addClass_idem (l : List Nat) (i : Nat) : addClass (addClass l i) i = addClass l i := by
  by_cases h : i ∈ l
  · simp [addClass, h]
  · have h1 : addClass l i = l ++ [i] := by simp [addClass, h]
    rw [h1]
    have h2 : i ∈ l ++ [i] := by simp
    simp [addClass, h2]

theorem removeClasses_idem (l : List Nat) (ts : List Nat) :
    removeClasses (removeClasses l ts) ts = removeClasses l ts := by
  unfold removeClasses
  rw [List.filter_filter]
  apply List.filter_congr
  intro a _
  simp

/-! ### Behaviour of `getHandler` -/

theorem getHandler_out_of_range (form : List Control) (st : EngineState) (idx : Nat)
    (h : form[idx]? = none) : getHandler form st idx = st := by
  unfold getHandler
  rw [h]

theorem getHandler_isInvalid (form : List Control) (st : EngineState) (idx : Nat)
    (input : Control) (h : form[idx]? = some input) :
    (getHandler form st idx).isInvalid
      = assocSet st.isInvalid idx (controlMessage form input != "") := by
  unfold getHandler
  rw [h]
  by_cases hm : controlMessage form input = ""
  · simp [hm, resetInputErrorState]
  · have hb : (controlMessage form input != "") = true := by simp [hm]
    simp [hm, hb]

theorem getHandler_valid_eq (form : List Control) (st : EngineState) (idx : Nat)
    (input : Control) (h : form[idx]? = some input)
    (hm : controlMessage form input = "") :
    getHandler form st idx
      = { isInvalid := assocSet st.isInvalid idx false
          errorDom := assocSet st.errorDom (getErrorId input) ""
          errorClass := removeClasses st.errorClass
            (if input.type == "radio" then radioGroupIdxs form input else [idx]) } := by
  unfold getHandler
  rw [h]
  simp [hm, resetInputErrorState]

theorem getHandler_invalid_eq (form : List Control) (st : EngineState) (idx : Nat)
    (input : Control) (h : form[idx]? = some input)
    (hm : controlMessage form input ≠ "") :
    getHandler form st idx
      = { isInvalid := assocSet st.isInvalid idx true
          errorDom := assocSet st.errorDom (getErrorId input) (controlMessage form input)
          errorClass := addClass st.errorClass idx } := by
  unfold getHandler
  rw [h]
  simp [hm]

/-! ### Claim C3: the required rule -/

/-- C3.  For every control marked required, a checkbox is valid (empty
message) iff it is checked; a radio is valid iff at least one member of the
same-name radio group in the form is checked, regardless of which; any other
control is valid iff its trimmed value is non-empty, and on failure the
message is the control's custom `data-error-message` when present, else the
generic non-empty message; a control not marked required always yields the
empty message. -/
theorem required_rule_spec (form : List Control) (input : Control) :
    (input.required = false → requiredRule form input = "")
  ∧ (input.required = true → input.type = "checkbox" →
      (requiredRule form input = "" ↔ input.checked = true))
  ∧ (input.required = true → input.type = "radio" →
      (requiredRule form input = "" ↔
        ∃ member ∈ form, member.type = "radio" ∧ member.name = input.name
          ∧ member.checked = true))
  ∧ (input.required = true → input.type ≠ "checkbox" → input.type ≠ "radio" →
      ((requiredRule form input = "" ↔ jsTrim input.value ≠ "")
       ∧ (jsTrim input.value = "" →
           requiredRule form input ≠ ""
           ∧ requiredRule form input
               = (if input.dataErrorMessage = "" then requiredGenericMsg
                  else input.dataErrorMessage)))) := by
  have hg : requiredGenericMsg ≠ "" := by decide
  refine ⟨?_, ?_, ?_, ?_⟩
  · intro h
    simp [requiredRule, h]
  · intro h1 h2
    cases hc : input.checked <;> simp [requiredRule, h1, h2, hc, hg]
  · intro h1 h2
    by_cases hf :
        (form.filter fun i => i.type == "radio" && i.name == input.name && i.checked) = []
    · have hempty : ¬∃ member ∈ form, member.type = "radio" ∧ member.name = input.name
          ∧ member.checked = true := by
        rintro ⟨member, hmem, hty, hnm, hch⟩
        have := List.filter_eq_nil_iff.mp hf member hmem
        simp [hty, hnm, hch] at this
      simp [requiredRule, h1, h2, hf, hg, hempty]
    · have hex : ∃ member ∈ form, member.type = "radio" ∧ member.name = input.name
          ∧ member.checked = true := by
        rcases List.exists_mem_of_ne_nil _ hf with ⟨member, hmem⟩
        rcases List.mem_filter.mp hmem with ⟨hmemForm, hpred⟩
        simp only [Bool.and_eq_true, beq_iff_eq] at hpred
        exact ⟨member, hmemForm, hpred.1.1, hpred.1.2, hpred.2⟩
      have hlen : (form.filter fun i =>
          i.type == "radio" && i.name == input.name && i.checked).length ≠ 0 := by
        simpa [List.length_eq_zero] using hf
      simp [requiredRule, h1, h2, hlen, hex]
  · intro h1 h2 h3
    by_cases ht : jsTrim input.value = ""
    · by_cases hd : input.dataErrorMessage = ""
      · simp [requiredRule, h1, h2, h3, ht, hd, hg]
      · simp [requiredRule, h1, h2, h3, ht, hd]
    · simp [requiredRule, h1, h2, h3, ht]

/-- Witness for `required_rule_spec` at concrete controls: an unchecked
required radio whose group has a checked member is valid, and a blank
required text control with a custom message fails with that message. -/
theorem required_rule_spec_witness :
    (requiredRule contactFormC
        { type := "radio", name := "type", id := "r1", value := "radio01", required := true }
      = "")
  ∧ (requiredRule [] { required := true, value := " ", dataErrorMessage := "お名前を入力してください。" }
      ≠ ""
     ∧ requiredRule [] { required := true, value := " ", dataErrorMessage := "お名前を入力してください。" }
      = "お名前を入力してください。") := by
  constructor
  · exact (required_rule_spec contactFormC
      { type := "radio", name := "type", id := "r1", value := "radio01",
        required := true }).2.2.1 rfl rfl |>.mpr
      ⟨{ type := "radio", name := "type", id := "r2", value := "radio02", required := true,
          checked := true }, by decide, by decide⟩
  · have h := (required_rule_spec []
      { required := true, value := " ", dataErrorMessage := "お名前を入力してください。" }).2.2.2
      rfl (by decide) (by decide)
    have h2 := h.2 (by decide)
    exact ⟨h2.1, by rw [h2.2]; decide⟩

/-! ### Claim C4: acknowledgment depends only on transport success -/

/-- C4.  After the POST is issued, the blocking acknowledgment alert is
surfaced iff the request fulfils at the transport level; the chain registers
no rejection handler, so a network failure surfaces nothing; and in neither
case does any code reset or clear the form. -/
theorem acknowledgment_transport_only (form : List Control) (transportOk : Bool) :
    userMessage (submitContact form) transportOk
      = (if transportOk then some "送信が完了しました。追ってご連絡いたします！" else none)
  ∧ (submitContact form).hasRejectionHandler = false
  ∧ (submitContact form).resetsForm = false := by
  refine ⟨?_, rfl, rfl⟩
  cases transportOk <;> rfl

/-! ### Claim C7: how messages of simultaneously failing rules combine -/

/-- C7 (amended).  The rendered error text of an invalid control is the
concatenation of the non-empty failed-rule messages, in rule order, joined
with the line break `<br>`; no rule suppresses another rule's message. -/
theorem error_message_joining (form : List Control) (st : EngineState)
    (idx : Nat) (input : Control) (h : form[idx]? = some input)
    (hm : controlMessage form input ≠ "") :
    lookupA (getHandler form st idx).errorDom (getErrorId input)
      = some (String.intercalate "<br>"
          (([minLengthRule input, maxLengthRule input, requiredRule form input,
             patternRule input]).filter (fun msg => msg != ""))) := by
  rw [getHandler_invalid_eq form st idx input h hm, lookupA_assocSet_self]
  rfl

/-- Witness for `error_message_joining`: the control failing minLength and
required renders both messages joined by `<br>`. -/
theorem error_message_joining_witness :
    lookupA (getHandler [mlcControl] initState 0).errorDom (getErrorId mlcControl)
      = some "5文字以上入力してください。<br>このフィールドは入力必須です。" := by
  rw [error_message_joining [mlcControl] initState 0 mlcControl (by decide) (by decide)]
  decide

/-- Counterexample to C7 as stated: a control that fails both the required
rule and the minLength rule renders both messages, not at most the required
message — nothing is suppressed. -/
theorem multiple_messages_counterexample :
    requiredRule [mlcControl] mlcControl = "このフィールドは入力必須です。"
  ∧ controlMessage [mlcControl] mlcControl
      = "5文字以上入力してください。<br>このフィールドは入力必須です。"
  ∧ lookupA (getHandler [mlcControl] initState 0).errorDom "ml-error"
      = some "5文字以上入力してください。<br>このフィールドは入力必須です。" := by
  refine ⟨by decide, by decide, by decide⟩

/-! ### Claim C8: evaluation is idempotent -/

/-- C8.  Re-running `getHandler` on an unchanged control is idempotent: the
second evaluation leaves the validity map, the rendered error text and the
error classes exactly as the first left them — in particular no error text
accumulates. -/
theorem evaluate_idempotent (form : List Control) (st : EngineState) (idx : Nat) :
    getHandler form (getHandler form st idx) idx = getHandler form st idx := by
  cases hidx : form[idx]? with
  | none =>
    rw [getHandler_out_of_range form st idx hidx, getHandler_out_of_range form st idx hidx]
  | some input =>
    by_cases hm : controlMessage form input = ""
    · rw [getHandler_valid_eq form st idx input hidx hm,
        getHandler_valid_eq form _ idx input hidx hm]
      simp [assocSet_idem, removeClasses_idem]
    · rw [getHandler_invalid_eq form st idx input hidx hm,
        getHandler_invalid_eq form _ idx input hidx hm]
      simp [assocSet_idem, addClass_idem]

/-! ### Claim C1: submit interception and gating -/

theorem getHandler_isInvalid_at (form : List Control) (st : EngineState) (idx : Nat)
    (h : idx < form.length) :
    (getHandler form st idx).isInvalid
      = assocSet st.isInvalid idx (messageAt form idx != "") := by
  have h1 : form[idx]? = some form[idx] := List.getElem?_eq_getElem h
  rw [getHandler_isInvalid form st idx form[idx] h1]
  congr 1
  simp [messageAt, h1]

theorem getHandler_keys_lt (form : List Control) (st : EngineState) (idx : Nat)
    (hst : ∀ p ∈ st.isInvalid, p.1 < form.length) :
    ∀ p ∈ (getHandler form st idx).isInvalid, p.1 < form.length := by
  by_cases h : idx < form.length
  · rw [getHandler_isInvalid_at form st idx h]
    intro p hp
    rcases mem_assocSet hp with rfl | ⟨hm, _⟩
    · exact h
    · exact hst p hm
  · rw [getHandler_out_of_range form st idx (List.getElem?_eq_none (by omega))]
    exact hst

theorem foldl_getHandler_keys_lt (form : List Control) (idxs : List Nat) (st : EngineState)
    (hst : ∀ p ∈ st.isInvalid, p.1 < form.length) :
    ∀ p ∈ (idxs.foldl (getHandler form) st).isInvalid, p.1 < form.length := by
  induction idxs generalizing st with
  | nil => exact hst
  | cons a idxs ih => exact ih _ (getHandler_keys_lt form st a hst)

theorem runInputEvents_keys_lt (form : List Control) (events : List Nat) :
    ∀ p ∈ (runInputEvents form events).isInvalid, p.1 < form.length := by
  apply foldl_getHandler_keys_lt
  intro p hp
  simp [initState] at hp

theorem foldl_getHandler_entries (form : List Control) (idxs : List Nat) (st : EngineState)
    (hst : ∀ p ∈ st.isInvalid,
      p.1 < form.length ∧ (p.1 ∉ idxs → p.2 = (messageAt form p.1 != ""))) :
    ∀ p ∈ (idxs.foldl (getHandler form) st).isInvalid,
      p.1 < form.length ∧ p.2 = (messageAt form p.1 != "") := by
  induction idxs generalizing st with
  | nil =>
    intro p hp
    rcases hst p hp with ⟨h1, h2⟩
    exact ⟨h1, h2 (by simp)⟩
  | cons a idxs ih =>
    rw [List.foldl_cons]
    apply ih
    by_cases ha : a < form.length
    · rw [getHandler_isInvalid_at form st a ha]
      intro p hp
      rcases mem_assocSet hp with rfl | ⟨hm, hne⟩
      · exact ⟨ha, fun _ => rfl⟩
      · rcases hst p hm with ⟨h1, h2⟩
        refine ⟨h1, fun hnotin => h2 ?_⟩
        simp only [List.mem_cons, not_or]
        exact ⟨hne, hnotin⟩
    · rw [getHandler_out_of_range form st a (List.getElem?_eq_none (by omega))]
      intro p hp
      rcases hst p hp with ⟨h1, h2⟩
      refine ⟨h1, fun hnotin => h2 ?_⟩
      simp only [List.mem_cons, not_or]
      exact ⟨by omega, hnotin⟩

theorem foldl_getHandler_lookup_frozen (form : List Control) (idxs : List Nat)
    (k : Nat) (hk : k ∉ idxs) (st : EngineState) :
    lookupA ((idxs.foldl (getHandler form) st).isInvalid) k = lookupA st.isInvalid k := by
  induction idxs generalizing st with
  | nil => rfl
  | cons a idxs ih =>
    have hka : k ≠ a := fun h => hk (h ▸ List.mem_cons_self a idxs)
    have hrest : k ∉ idxs := fun h => hk (List.mem_cons_of_mem a h)
    rw [List.foldl_cons, ih hrest]
    by_cases ha : a < form.length
    · rw [getHandler_isInvalid_at form st a ha, lookupA_assocSet_ne _ _ _ _ hka]
    · rw [getHandler_out_of_range form st a (List.getElem?_eq_none (by omega))]

theorem foldl_getHandler_lookup (form : List Control) (idxs : List Nat) (st : EngineState)
    (k : Nat) (hk : k ∈ idxs) (hklen : k < form.length) :
    lookupA ((idxs.foldl (getHandler form) st).isInvalid) k
      = some (messageAt form k != "") := by
  induction idxs generalizing st with
  | nil => cases hk
  | cons a idxs ih =>
    rw [List.foldl_cons]
    by_cases hmem : k ∈ idxs
    · exact ih _ hmem
    · have hka : k = a := by
        rcases List.mem_cons.mp hk with h | h
        · exact h
        · exact absurd h hmem
      subst hka
      rw [foldl_getHandler_lookup_frozen form idxs k hmem,
        getHandler_isInvalid_at form st k hklen, lookupA_assocSet_self]

theorem foldl_getHandler_fresh (form : List Control) (idxs : List Nat) (st : EngineState)
    (hd : ∀ i ∈ idxs, ∀ p ∈ st.isInvalid, p.1 ≠ i)
    (hnodup : idxs.Nodup) (hlen : ∀ i ∈ idxs, i < form.length) :
    (idxs.foldl (getHandler form) st).isInvalid
      = st.isInvalid ++ idxs.map (fun i => (i, messageAt form i != "")) := by
  induction idxs generalizing st with
  | nil => simp
  | cons a idxs ih =>
    rw [List.foldl_cons]
    have ha : a < form.length := hlen a (List.mem_cons_self a idxs)
    have hfresh : st.isInvalid.any (fun p => p.1 == a) = false := by
      rw [List.any_eq_false]
      intro p hp
      simp [hd a (List.mem_cons_self a idxs) p hp]
    have hstep : (getHandler form st a).isInvalid
        = st.isInvalid ++ [(a, messageAt form a != "")] := by
      rw [getHandler_isInvalid_at form st a ha, assocSet_of_fresh _ _ _ hfresh]
    have hnotmem : a ∉ idxs := (List.nodup_cons.mp hnodup).1
    have hd' : ∀ i ∈ idxs, ∀ p ∈ (getHandler form st a).isInvalid, p.1 ≠ i := by
      intro i hi p hp
      rw [hstep] at hp
      rcases List.mem_append.mp hp with h | h
      · exact hd i (List.mem_cons_of_mem a hi) p h
      · have hp1 : p.1 = a := by
          rcases List.mem_singleton.mp h with rfl
          rfl
        rw [hp1]
        intro hcon
        exact hnotmem (hcon ▸ hi)
    rw [ih _ hd' (List.nodup_cons.mp hnodup).2 (fun i hi => hlen i (List.mem_cons_of_mem a hi)),
      hstep]
    simp

theorem submitClick_state (form : List Control) (st : EngineState) :
    (submitClick form st).state = (List.range form.length).foldl (getHandler form) st := by
  cases h : ((List.range form.length).foldl (getHandler form) st).isInvalid.find?
      (fun p => p.2) <;> simp [submitClick, h]

theorem submitClick_prevented (form : List Control) (st : EngineState) :
    (submitClick form st).preventedDefault = true := by
  cases h : ((List.range form.length).foldl (getHandler form) st).isInvalid.find?
      (fun p => p.2) <;> simp [submitClick, h]

theorem submitClick_submitted_iff (form : List Control) (st : EngineState) :
    (submitClick form st).submitted = true
      ↔ ((List.range form.length).foldl (getHandler form) st).isInvalid.find?
          (fun p => p.2) = none := by
  cases h : ((List.range form.length).foldl (getHandler form) st).isInvalid.find?
      (fun p => p.2) <;> simp [submitClick, h]

theorem submitClick_handedOff (form : List Control) (st : EngineState) :
    (submitClick form st).handedOff
      = (if (submitClick form st).submitted then some form else none) := by
  cases h : ((List.range form.length).foldl (getHandler form) st).isInvalid.find?
      (fun p => p.2) <;> simp [submitClick, h]

theorem submitClick_focused (form : List Control) (st : EngineState) :
    (submitClick form st).focused
      = (((List.range form.length).foldl (getHandler form) st).isInvalid.find?
          (fun p => p.2)).map (fun p => p.1) := by
  cases h : ((List.range form.length).foldl (getHandler form) st).isInvalid.find?
      (fun p => p.2) <;> simp [submitClick, h]

/-- C1 (amended).  A submit click always prevents the default submission and
re-evaluates every control; `submitContact` is invoked with the form iff
every control's evaluation is valid, and otherwise submission is aborted
with focus moved to the first invalid entry of the validity map in `Map`
insertion order — which is the enumeration-order first invalid control
whenever no input event preceded the submit. -/
theorem submit_click_gating (form : List Control) (events : List Nat) :
    (submitClick form (runInputEvents form events)).preventedDefault = true
  ∧ ((submitClick form (runInputEvents form events)).submitted = true
      ↔ ∀ i, i < form.length → messageAt form i = "")
  ∧ ((submitClick form (runInputEvents form events)).handedOff
      = if (submitClick form (runInputEvents form events)).submitted then some form else none)
  ∧ (events = [] →
      (submitClick form (runInputEvents form events)).focused = firstInvalidIdx form) := by
  refine ⟨submitClick_prevented _ _, ?_, submitClick_handedOff _ _, ?_⟩
  · rw [submitClick_submitted_iff]
    constructor
    · intro hnone i hi
      have hlk := foldl_getHandler_lookup form (List.range form.length)
        (runInputEvents form events) i (List.mem_range.mpr hi) hi
      unfold lookupA at hlk
      rcases Option.map_eq_some'.mp hlk with ⟨q, hq, hq2⟩
      have hqmem := List.mem_of_find?_eq_some hq
      have hqfalse := List.find?_eq_none.mp hnone q hqmem
      have : q.2 = false := by
        revert hqfalse
        cases q.2 <;> simp
      rw [this] at hq2
      have : (messageAt form i != "") = false := hq2.symm
      simpa using this
    · intro hall
      rw [List.find?_eq_none]
      intro p hp
      have hent := foldl_getHandler_entries form (List.range form.length)
        (runInputEvents form events) ?_ p hp
      · rcases hent with ⟨h1, h2⟩
        rw [h2]
        simp [hall p.1 h1]
      · intro q hq
        refine ⟨runInputEvents_keys_lt form events q hq, fun hnot => ?_⟩
        exact absurd (List.mem_range.mpr (runInputEvents_keys_lt form events q hq)) hnot
  · intro hev
    subst hev
    rw [submitClick_focused]
    have hfresh := foldl_getHandler_fresh form (List.range form.length) initState
      (by intro i _ p hp; simp [initState] at hp)
      (List.nodup_range _) (by intro i hi; exact List.mem_range.mp hi)
    rw [show runInputEvents form [] = initState from rfl, hfresh]
    rw [show initState.isInvalid = [] from rfl, List.nil_append, List.find?_map]
    rw [firstInvalidIdx, Option.map_map]
    have h1 : ((fun p : Nat × Bool => p.1) ∘ fun i => (i, messageAt form i != ""))
        = fun i : Nat => i := rfl
    have h2 : ((fun p : Nat × Bool => p.2) ∘ fun i => (i, messageAt form i != ""))
        = fun i => messageAt form i != "" := rfl
    rw [h1, h2]
    simp

/-- Witness for `submit_click_gating`: on the all-valid one-control form the
submit click hands the form to the pipeline. -/
theorem submit_click_gating_witness :
    (submitClick okFormC (runInputEvents okFormC [])).submitted = true
  ∧ (submitClick okFormC (runInputEvents okFormC [])).focused = none := by
  constructor
  · exact (submit_click_gating okFormC []).2.1.mpr (by decide)
  · have h := (submit_click_gating okFormC []).2.2.2 rfl
    rw [h]
    decide

/-- Counterexample to C1 as stated: with both controls of `vformC` invalid,
an input event on the second control before the submit makes the second
control's map entry come first, so focus lands on control 1 even though the
first invalid control in enumeration order is control 0. -/
theorem submit_focus_counterexample :
    (submitClick vformC (runInputEvents vformC [1])).focused = some 1
  ∧ firstInvalidIdx vformC = some 0 := by
  refine ⟨by decide, by decide⟩

/-! ### Claim C9: validity is exactly message emptiness -/

/-- C9 (amended).  Every evaluation computes all four rules (the recorded
state is determined by their joined output), and the control is marked
invalid iff its own joined message is non-empty: a control whose message
computes empty is always treated as valid, even when the required rule
failed for another control of the same radio group, so the code path for
"invalid with no visible message" is unreachable. -/
theorem validity_is_message_emptiness (form : List Control) (st : EngineState)
    (idx : Nat) (input : Control) (h : form[idx]? = some input) :
    lookupA (getHandler form st idx).isInvalid idx
      = some (result [minLengthRule input, maxLengthRule input,
          requiredRule form input, patternRule input] != "") := by
  rw [getHandler_isInvalid form st idx input h, lookupA_assocSet_self]
  rfl

/-- Witness for `validity_is_message_emptiness` at a concrete control. -/
theorem validity_is_message_emptiness_witness :
    lookupA (getHandler vformC initState 0).isInvalid 0 = some true := by
  rw [validity_is_message_emptiness vformC initState 0
    { name := "name", id := "nameC", required := true, value := "" } (by decide)]
  decide

/-- Counterexample to C9 as stated: in a radio group whose required member
`ra` fails the required rule, the non-required member `rb` computes an empty
message and is recorded as *valid* (`false` in the validity map), not as
"invalid with no visible message". -/
theorem group_member_counterexample :
    requiredRule rformC (rformC.getD 0 {}) = "このフィールドは入力必須です。"
  ∧ (rformC.getD 1 {}).name = (rformC.getD 0 {}).name
  ∧ controlMessage rformC (rformC.getD 1 {}) = ""
  ∧ lookupA (submitClick rformC initState).state.isInvalid 1 = some false := by
  refine ⟨by decide, by decide, by decide, by decide⟩

/-! ### Claim C10: value extraction never reads the checked state -/

theorem getValuesStep_strip (acc : Collected) (c : Control) :
    getValuesStep acc (stripChecked c) = getValuesStep acc c := rfl

theorem getValues_strip (f : List Control) :
    getValues (f.map stripChecked) = getValues f := by
  unfold getValues
  suffices h : ∀ acc : Collected,
      (f.map stripChecked).foldl getValuesStep acc = f.foldl getValuesStep acc from h {}
  induction f with
  | nil => intro acc; rfl
  | cons c f ih =>
    intro acc
    rw [List.map_cons, List.foldl_cons, List.foldl_cons, getValuesStep_strip]
    exact ih (getValuesStep acc c)

set_option maxHeartbeats 1000000 in
theorem getValuesStep_type (acc : Collected) (c : Control) :
    (getValuesStep acc c).type
      = (if c.type == "radio" then (inquiryLabel c.value).getD acc.type else acc.type) := by
  unfold getValuesStep inquiryLabel
  by_cases hr : (c.type == "radio") = true
  · rw [if_pos hr, if_pos hr]
    by_cases h1 : (c.value == "radio01") = true
    · rw [if_pos h1, if_pos h1]
      rfl
    · rw [if_neg h1, if_neg h1]
      by_cases h2 : (c.value == "radio02") = true
      · rw [if_pos h2, if_pos h2]
        rfl
      · rw [if_neg h2, if_neg h2]
        by_cases h3 : (c.value == "radio03") = true
        · rw [if_pos h3, if_pos h3]
          rfl
        · rw [if_neg h3, if_neg h3]
          by_cases h4 : (c.value == "radio04") = true
          · rw [if_pos h4, if_pos h4]
            rfl
          · rw [if_neg h4, if_neg h4]
            rfl
  · rw [if_neg hr, if_neg hr]
    split_ifs <;> rfl

theorem getValuesStep_radio_others (acc : Collected) (c : Control) (h : c.type = "radio") :
    (getValuesStep acc c).name = acc.name
  ∧ (getValuesStep acc c).companyName = acc.companyName
  ∧ (getValuesStep acc c).email = acc.email
  ∧ (getValuesStep acc c).detail = acc.detail
  ∧ (getValuesStep acc c).adv = acc.adv := by
  unfold getValuesStep
  rw [if_pos (show (c.type == "radio") = true by simp [h])]
  split_ifs <;> exact ⟨rfl, rfl, rfl, rfl, rfl⟩

theorem foldl_getValuesStep_type (f : List Control) :
    ∀ acc : Collected, (f.foldl getValuesStep acc).type
      = ((f.reverse.find? isInquiryRadio).bind (fun c => inquiryLabel c.value)).getD
          acc.type := by
  induction f with
  | nil => intro acc; rfl
  | cons c f ih =>
    intro acc
    rw [List.foldl_cons, ih, List.reverse_cons, List.find?_append]
    cases hf : f.reverse.find? isInquiryRadio with
    | some q =>
      have hq : isInquiryRadio q = true := List.find?_some hf
      rcases (show (q.type == "radio") = true ∧ (inquiryLabel q.value).isSome = true by
        simpa [isInquiryRadio, Bool.and_eq_true] using hq) with ⟨_, h2⟩
      rcases Option.isSome_iff_exists.mp h2 with ⟨lab, hlab⟩
      simp [Option.or, hlab]
    | none =>
      rw [Option.none_or, getValuesStep_type]
      simp only [Option.none_bind, Option.getD_none]
      by_cases hc : isInquiryRadio c = true
      · have hfind : List.find? isInquiryRadio [c] = some c := by
          simp [List.find?, hc]
        rw [hfind]
        rcases (show (c.type == "radio") = true ∧ (inquiryLabel c.value).isSome = true by
          simpa [isInquiryRadio, Bool.and_eq_true] using hc) with ⟨h1, h2⟩
        rcases Option.isSome_iff_exists.mp h2 with ⟨lab, hlab⟩
        rw [if_pos h1]
        simp [hlab]
      · have hcf : isInquiryRadio c = false := by simpa using hc
        have hfind : List.find? isInquiryRadio [c] = none := by
          simp [List.find?, hcf]
        rw [hfind]
        simp only [Option.none_bind, Option.getD_none]
        by_cases hr : (c.type == "radio") = true
        · have hl : inquiryLabel c.value = none := by
            rcases ho : inquiryLabel c.value with _ | lab
            · rfl
            · exfalso
              rw [isInquiryRadio, hr, ho] at hcf
              simp at hcf
          rw [if_pos hr, hl]
          rfl
        · rw [if_neg hr]

/-- C10.  The value extraction of `submitContact` never reads any control's
checked state: two forms that agree except for checked flags produce
identical collected values (hence identical payloads); the inquiry-type
label is the label of the value of the last radio in enumeration order
whose value is one of `radio01`..`radio04` (empty when there is none); and
a control of type `radio` never changes any of the name-keyed fields, so a
radio named `adv` never sets the referral-source label. -/
theorem getValues_checked_blind :
    (∀ f g : List Control, f.map stripChecked = g.map stripChecked →
      getValues f = getValues g)
  ∧ (∀ f : List Control, (getValues f).type
      = ((f.reverse.find? isInquiryRadio).bind (fun c => inquiryLabel c.value)).getD "")
  ∧ (∀ (acc : Collected) (c : Control), c.type = "radio" →
      (getValuesStep acc c).name = acc.name
      ∧ (getValuesStep acc c).companyName = acc.companyName
      ∧ (getValuesStep acc c).email = acc.email
      ∧ (getValuesStep acc c).detail = acc.detail
      ∧ (getValuesStep acc c).adv = acc.adv) := by
  refine ⟨?_, ?_, ?_⟩
  · intro f g h
    rw [← getValues_strip f, ← getValues_strip g, h]
  · intro f
    exact foldl_getValuesStep_type f {}
  · intro acc c h
    exact getValuesStep_radio_others acc c h

/-! ### Lemmas about the template replacement `replLoop` -/

theorem takeWhile_ws_append (w : List Char) (x : Char) (rest : List Char)
    (hw : ∀ c ∈ w, isWs c = true) (hx : isWs x = false) :
    (w ++ x :: rest).takeWhile isWs = w := by
  induction w with
  | nil =>
    rw [List.nil_append, List.takeWhile_cons_of_neg (by simp [hx])]
  | cons c w ih =>
    rw [List.cons_append, List.takeWhile_cons_of_pos (hw c (List.mem_cons_self c w)),
      ih (fun d hd => hw d (List.mem_cons_of_mem c hd))]

theorem matchWsDollar_of_nonWs_head (c : Char) (rest : List Char) (hc : isWs c = false) :
    matchWsDollar (c :: rest) = none := by
  unfold matchWsDollar
  rw [List.takeWhile_cons_of_neg (by simp [hc])]
  rfl

theorem matchWsDollar_none_of (w : List Char) (x : Char) (rest : List Char)
    (hw : ∀ c ∈ w, isWs c = true)
    (hnl : ∀ k, 1 ≤ k → w.getD k ' ' ≠ '\n')
    (hx : isWs x = false) :
    matchWsDollar (w ++ x :: rest) = none := by
  have htw : ((w ++ x :: rest).takeWhile isWs) = w := takeWhile_ws_append w x rest hw hx
  by_cases hw0 : w = []
  · subst hw0
    rw [List.nil_append]
    exact matchWsDollar_of_nonWs_head x rest hx
  · unfold matchWsDollar
    rw [htw]
    have h1 : (w.length == 0) = false := by simp [List.length_eq_zero, hw0]
    have h2 : (w.length == (w ++ x :: rest).length) = false := by
      simp only [List.length_append, List.length_cons, beq_eq_false_iff_ne, ne_eq]
      omega
    have h3 : (List.range w.length).filter
        (fun k => k != 0 && ((w ++ x :: rest).getD k ' ') == '\n') = [] := by
      rw [List.filter_eq_nil_iff]
      intro k hk
      rw [List.mem_range] at hk
      intro hcontra
      rw [Bool.and_eq_true] at hcontra
      rcases hcontra with ⟨hk0, hknl⟩
      have hk1 : 1 ≤ k := by
        rcases Nat.eq_zero_or_pos k with rfl | h
        · simp at hk0
        · exact h
      have hgd : (w ++ x :: rest).getD k ' ' = w.getD k ' ' :=
        List.getD_append w (x :: rest) ' ' k hk
      rw [hgd] at hknl
      exact hnl k hk1 (by simpa using hknl)
    rw [if_neg (by rw [h1]; simp), if_neg (by rw [h2]; simp), h3]
    rfl

theorem matchWsDollar_all_ws (l : List Char) (hne : l ≠ []) (hw : ∀ c ∈ l, isWs c = true) :
    matchWsDollar l = some l.length := by
  have htw : l.takeWhile isWs = l := by
    induction l with
    | nil => rfl
    | cons c l2 ih =>
      rw [List.takeWhile_cons_of_pos (hw c (List.mem_cons_self c l2))]
      by_cases h2 : l2 = []
      · rw [h2]
        rfl
      · rw [ih h2 (fun d hd => hw d (List.mem_cons_of_mem c hd))]
  unfold matchWsDollar
  rw [htw]
  have h1 : (l.length == 0) = false := by
    simp [List.length_eq_zero, hne]
  simp [h1]

theorem replLoopF_cons (fuel : Nat) (prev : Option Char) (c : Char) (rest : List Char) :
    replLoopF (fuel + 1) prev (c :: rest)
      = if lineStartB prev && c == '\n' then replLoopF fuel (some '\n') rest
        else
          match matchWsDollar (c :: rest) with
          | some k => replLoopF fuel (some ((c :: rest).getD (k - 1) ' ')) (rest.drop (k - 1))
          | none =>
            if lineStartB prev && (c :: rest).take 4 == [' ', ' ', ' ', ' '] then
              replLoopF fuel (some ' ') (rest.drop 3)
            else c :: replLoopF fuel (some c) rest := rfl

theorem replLoopF_fuel_eq : ∀ (f1 f2 : Nat) (prev : Option Char) (l : List Char),
    l.length ≤ f1 → l.length ≤ f2 → replLoopF f1 prev l = replLoopF f2 prev l := by
  intro f1
  induction f1 with
  | zero =>
    intro f2 prev l h1 _
    have hl : l = [] := List.eq_nil_of_length_eq_zero (Nat.le_zero.mp h1)
    subst hl
    cases f2 <;> rfl
  | succ f1 ih =>
    intro f2 prev l h1 h2
    cases l with
    | nil => cases f2 <;> rfl
    | cons c rest =>
      cases f2 with
      | zero => simp at h2
      | succ f2 =>
        simp only [List.length_cons] at h1 h2
        have h1a : rest.length ≤ f1 := by omega
        have h2a : rest.length ≤ f2 := by omega
        show replLoopF (f1 + 1) prev (c :: rest) = replLoopF (f2 + 1) prev (c :: rest)
        rw [replLoopF_cons, replLoopF_cons]
        by_cases hg1 : (lineStartB prev && c == '\n') = true
        · rw [if_pos hg1, if_pos hg1]
          exact ih f2 (some '\n') rest h1a h2a
        · rw [if_neg hg1, if_neg hg1]
          cases hm : matchWsDollar (c :: rest) with
          | some k =>
            exact ih f2 _ _ (by rw [List.length_drop]; omega)
              (by rw [List.length_drop]; omega)
          | none =>
            show (if (lineStartB prev && (c :: rest).take 4 == [' ', ' ', ' ', ' ']) = true
                then replLoopF f1 (some ' ') (rest.drop 3)
                else c :: replLoopF f1 (some c) rest)
              = (if (lineStartB prev && (c :: rest).take 4 == [' ', ' ', ' ', ' ']) = true
                then replLoopF f2 (some ' ') (rest.drop 3)
                else c :: replLoopF f2 (some c) rest)
            by_cases hg3 :
                (lineStartB prev && (c :: rest).take 4 == [' ', ' ', ' ', ' ']) = true
            · rw [if_pos hg3, if_pos hg3]
              exact ih f2 _ _ (by rw [List.length_drop]; omega)
                (by rw [List.length_drop]; omega)
            · rw [if_neg hg3, if_neg hg3]
              exact congrArg (c :: ·) (ih f2 (some c) rest h1a h2a)

theorem replLoop_cons_keep (prev : Option Char) (c : Char) (rest : List Char)
    (h1 : (lineStartB prev && c == '\n') = false)
    (h2 : matchWsDollar (c :: rest) = none)
    (h3 : (lineStartB prev && (c :: rest).take 4 == [' ', ' ', ' ', ' ']) = false) :
    replLoop prev (c :: rest) = c :: replLoop (some c) rest := by
  show replLoopF (c :: rest).length prev (c :: rest) = c :: replLoopF rest.length (some c) rest
  rw [List.length_cons, replLoopF_cons]
  rw [h2, if_neg (by rw [h1]; simp), if_neg (by rw [h3]; simp)]

theorem replLoop_cons_nlStart (prev : Option Char) (rest : List Char)
    (h : lineStartB prev = true) :
    replLoop prev ('\n' :: rest) = replLoop (some '\n') rest := by
  show replLoopF ('\n' :: rest).length prev ('\n' :: rest)
      = replLoopF rest.length (some '\n') rest
  rw [List.length_cons, replLoopF_cons]
  rw [if_pos (show (lineStartB prev && '\n' == '\n') = true by rw [h]; rfl)]

theorem replLoop_cons_wsMatch (prev : Option Char) (c : Char) (rest : List Char) (k : Nat)
    (h1 : (lineStartB prev && c == '\n') = false)
    (h2 : matchWsDollar (c :: rest) = some k) :
    replLoop prev (c :: rest)
      = replLoop (some ((c :: rest).getD (k - 1) ' ')) (rest.drop (k - 1)) := by
  show replLoopF (c :: rest).length prev (c :: rest)
      = replLoopF (rest.drop (k - 1)).length (some ((c :: rest).getD (k - 1) ' '))
          (rest.drop (k - 1))
  rw [List.length_cons, replLoopF_cons]
  rw [h2, if_neg (by rw [h1]; simp)]
  exact replLoopF_fuel_eq rest.length (rest.drop (k - 1)).length _ _
    (by rw [List.length_drop]; omega) (by omega)

theorem replLoop_cons_indent (prev : Option Char) (c : Char) (rest : List Char)
    (h1 : (lineStartB prev && c == '\n') = false)
    (h2 : matchWsDollar (c :: rest) = none)
    (h3 : lineStartB prev = true)
    (h4 : (c :: rest).take 4 = [' ', ' ', ' ', ' ']) :
    replLoop prev (c :: rest) = replLoop (some ' ') (rest.drop 3) := by
  show replLoopF (c :: rest).length prev (c :: rest)
      = replLoopF (rest.drop 3).length (some ' ') (rest.drop 3)
  rw [List.length_cons, replLoopF_cons]
  rw [h2, if_neg (by rw [h1]; simp),
    if_pos (show (lineStartB prev && (c :: rest).take 4 == [' ', ' ', ' ', ' ']) = true by
      rw [h3, h4]; simp)]
  exact replLoopF_fuel_eq rest.length (rest.drop 3).length _ _
    (by rw [List.length_drop]; omega) (by omega)

/-- A mid-line value: no newline inside, and the last character (if any) is
not whitespace.  Processing such a value at a non-line-start position copies
it verbatim. -/
theorem replLoop_midVal (v : List Char) :
    ∀ (prev : Option Char) (rest : List Char),
      lineStartB prev = false →
      '\n' ∉ v →
      (∀ hne : v ≠ [], isWs (v.getLast hne) = false) →
      replLoop prev (v ++ rest) = v ++ replLoop (v.getLast?.or prev) rest := by
  induction v with
  | nil =>
    intro prev rest _ _ _
    simp [Option.or]
  | cons c v2 ih =>
    intro prev rest h0 hnl hlast
    have hcn : c ≠ '\n' := fun h => hnl (h ▸ List.mem_cons_self c v2)
    have hguard1 : (lineStartB prev && c == '\n') = false := by simp [h0]
    have hguard3 :
        (lineStartB prev && (c :: (v2 ++ rest)).take 4 == [' ', ' ', ' ', ' ']) = false := by
      simp [h0]
    have hmatch : matchWsDollar (c :: (v2 ++ rest)) = none := by
      by_cases hcw : isWs c = true
      · have hvne : (c :: v2) ≠ [] := by simp
        have hdropne : (c :: v2).dropWhile isWs ≠ [] := by
          intro hdrop
          have hsplit := List.takeWhile_append_dropWhile (p := isWs) (l := c :: v2)
          rw [hdrop, List.append_nil] at hsplit
          have hlastmem : (c :: v2).getLast hvne ∈ (c :: v2).takeWhile isWs := by
            rw [hsplit]
            exact List.getLast_mem hvne
          have hws := List.mem_takeWhile_imp hlastmem
          rw [hlast hvne] at hws
          simp at hws
        obtain ⟨x, t, hxt⟩ : ∃ x t, (c :: v2).dropWhile isWs = x :: t := by
          cases hd : (c :: v2).dropWhile isWs with
          | nil => exact absurd hd hdropne
          | cons x t => exact ⟨x, t, rfl⟩
        have hxnws : isWs x = false := by
          have hh := List.head?_dropWhile_not isWs (c :: v2)
          rw [hxt] at hh
          simpa using hh
        have hw_ws : ∀ d ∈ (c :: v2).takeWhile isWs, isWs d = true :=
          fun d hd => List.mem_takeWhile_imp hd
        have hw_nl : ∀ k, 1 ≤ k → ((c :: v2).takeWhile isWs).getD k ' ' ≠ '\n' := by
          intro k _
          by_cases hklen : k < ((c :: v2).takeWhile isWs).length
          · rw [List.getD_eq_getElem _ _ hklen]
            intro hcontra
            have hmem : ((c :: v2).takeWhile isWs)[k] ∈ (c :: v2).takeWhile isWs :=
              List.getElem_mem hklen
            have hmem2 : ((c :: v2).takeWhile isWs)[k] ∈ (c :: v2) :=
              (List.takeWhile_prefix isWs).subset hmem
            rw [hcontra] at hmem2
            exact hnl hmem2
          · rw [List.getD_eq_default _ _ (by omega)]
            decide
        have hassemble : c :: (v2 ++ rest)
            = ((c :: v2).takeWhile isWs) ++ (x :: (t ++ rest)) := by
          have hsplit := List.takeWhile_append_dropWhile (p := isWs) (l := c :: v2)
          calc c :: (v2 ++ rest) = (c :: v2) ++ rest := rfl
            _ = (((c :: v2).takeWhile isWs) ++ (c :: v2).dropWhile isWs) ++ rest := by
                rw [hsplit]
            _ = ((c :: v2).takeWhile isWs) ++ (x :: (t ++ rest)) := by
                rw [hxt, List.append_assoc]
                rfl
        rw [hassemble]
        exact matchWsDollar_none_of _ x (t ++ rest) hw_ws hw_nl hxnws
      · exact matchWsDollar_of_nonWs_head c (v2 ++ rest) (by simpa using hcw)
    rw [List.cons_append, replLoop_cons_keep prev c (v2 ++ rest) hguard1 hmatch hguard3]
    have h0c : lineStartB (some c) = false := by simp [lineStartB, hcn]
    have hlast2 : ∀ hne : v2 ≠ [], isWs (v2.getLast hne) = false := by
      intro hne
      have := hlast (by simp)
      rwa [List.getLast_cons hne] at this
    rw [ih (some c) rest h0c (fun h => hnl (List.mem_cons_of_mem c h)) hlast2]
    cases hv2 : v2 with
    | nil => simp [Option.or]
    | cons d v3 =>
      have hgl : (d :: v3).getLast? = some ((d :: v3).getLast (by simp)) :=
        List.getLast?_eq_getLast _ (by simp)
      simp [List.getLast?_cons_cons, hgl, Option.or]

theorem spaces_getD (kk : Nat) :
    ([' ', ' ', ' ', ' ', ' ', ' '] : List Char).getD kk ' ' = ' ' := by
  rcases kk with _ | _ | _ | _ | _ | _ | m <;> rfl

theorem nl_spaces_getD (kk : Nat) (h : 1 ≤ kk) :
    (['\n', ' ', ' ', ' ', ' ', ' ', ' '] : List Char).getD kk ' ' = ' ' := by
  rcases kk with _ | _ | _ | _ | _ | _ | _ | m
  · omega
  all_goals rfl

theorem replLoop_indent6 (prev : Option Char) (x : Char) (rest : List Char)
    (h : lineStartB prev = true) (hx : isWs x = false) :
    replLoop prev (' ' :: ' ' :: ' ' :: ' ' :: ' ' :: ' ' :: x :: rest)
      = ' ' :: ' ' :: replLoop (some ' ') (x :: rest) := by
  have hm : matchWsDollar (' ' :: ' ' :: ' ' :: ' ' :: ' ' :: ' ' :: x :: rest) = none := by
    have := matchWsDollar_none_of [' ', ' ', ' ', ' ', ' ', ' '] x rest
      (by decide) (fun kk hk1 hcon => by rw [spaces_getD kk] at hcon; exact absurd hcon (by decide))
      hx
    simpa using this
  have hm2 : matchWsDollar (' ' :: ' ' :: x :: rest) = none := by
    have := matchWsDollar_none_of [' ', ' '] x rest
      (by decide) (fun kk hk1 hcon => by
        rcases kk with _ | _ | m
        · omega
        · exact absurd hcon (by decide)
        · exact absurd hcon (by simp [List.getD]))
      hx
    simpa using this
  have hm3 : matchWsDollar (' ' :: x :: rest) = none := by
    have := matchWsDollar_none_of [' '] x rest
      (by decide) (fun kk hk1 hcon => by
        rcases kk with _ | m
        · omega
        · exact absurd hcon (by simp [List.getD]))
      hx
    simpa using this
  rw [replLoop_cons_indent prev ' '
      (' ' :: ' ' :: ' ' :: ' ' :: ' ' :: x :: rest) (by simp) hm h rfl]
  rw [show (' ' :: ' ' :: ' ' :: ' ' :: ' ' :: x :: rest).drop 3 = ' ' :: ' ' :: x :: rest
    from rfl]
  rw [replLoop_cons_keep (some ' ') ' ' (' ' :: x :: rest) (by decide) hm2
    (by rw [show lineStartB (some ' ') = false from rfl]; simp)]
  rw [replLoop_cons_keep (some ' ') ' ' (x :: rest) (by decide) hm3
    (by rw [show lineStartB (some ' ') = false from rfl]; simp)]

theorem replLoop_nl6 (prev : Option Char) (x : Char) (rest : List Char)
    (h : lineStartB prev = false) (hx : isWs x = false) :
    replLoop prev ('\n' :: ' ' :: ' ' :: ' ' :: ' ' :: ' ' :: ' ' :: x :: rest)
      = '\n' :: ' ' :: ' ' :: replLoop (some ' ') (x :: rest) := by
  have hm : matchWsDollar ('\n' :: ' ' :: ' ' :: ' ' :: ' ' :: ' ' :: ' ' :: x :: rest)
      = none := by
    have := matchWsDollar_none_of ['\n', ' ', ' ', ' ', ' ', ' ', ' '] x rest
      (by decide)
      (fun kk hk1 hcon => by rw [nl_spaces_getD kk hk1] at hcon; exact absurd hcon (by decide))
      hx
    simpa using this
  rw [replLoop_cons_keep prev '\n' (' ' :: ' ' :: ' ' :: ' ' :: ' ' :: ' ' :: x :: rest)
    (by rw [h]; simp) hm (by rw [h]; simp)]
  rw [replLoop_indent6 (some '\n') x rest rfl hx]

theorem replLoop_tail6 (prev : Option Char) (h : lineStartB prev = false) :
    replLoop prev ('\n' :: [' ', ' ', ' ', ' ', ' ', ' ']) = [] := by
  have hm : matchWsDollar ('\n' :: [' ', ' ', ' ', ' ', ' ', ' ']) = some 7 := by decide
  rw [replLoop_cons_wsMatch prev '\n' [' ', ' ', ' ', ' ', ' ', ' '] 7
    (by rw [h]; simp) hm]
  rfl

theorem lineStartB_getLast_or (v : List Char) (prev : Option Char)
    (hlast : ∀ hne : v ≠ [], isWs (v.getLast hne) = false)
    (hprev : lineStartB prev = false) :
    lineStartB (v.getLast?.or prev) = false := by
  cases hv : v with
  | nil => simpa [Option.or] using hprev
  | cons dd v3 =>
    subst hv
    have hne : dd :: v3 ≠ [] := by simp
    have hgl : (dd :: v3).getLast? = some ((dd :: v3).getLast hne) :=
      List.getLast?_eq_getLast _ hne
    have hws : isWs ((dd :: v3).getLast hne) = false := hlast hne
    have hnl : (dd :: v3).getLast hne ≠ '\n' := by
      intro hcon
      rw [hcon] at hws
      exact absurd hws (by decide)
    rw [hgl]
    simp [lineStartB, Option.or, hnl]

theorem replLoop_start_chunk (x : Char) (xs rest : List Char) (hx : isWs x = false)
    (hnl : '\n' ∉ x :: xs)
    (hlast : ∀ hne : (x :: xs) ≠ [], isWs ((x :: xs).getLast hne) = false) :
    replLoop none ('\n' :: ' ' :: ' ' :: ' ' :: ' ' :: ' ' :: ' ' :: ((x :: xs) ++ rest))
      = ' ' :: ' ' :: ((x :: xs) ++ replLoop ((x :: xs).getLast?.or (some ' ')) rest) := by
  rw [replLoop_cons_nlStart none _ rfl]
  rw [show ((x :: xs) ++ rest) = x :: (xs ++ rest) from rfl]
  rw [replLoop_indent6 (some '\n') x (xs ++ rest) rfl hx]
  rw [show x :: (xs ++ rest) = (x :: xs) ++ rest from rfl]
  rw [replLoop_midVal (x :: xs) (some ' ') rest rfl hnl hlast]

theorem replLoop_nl6_chunk (prev : Option Char) (x : Char) (xs rest : List Char)
    (h : lineStartB prev = false) (hx : isWs x = false)
    (hnl : '\n' ∉ x :: xs)
    (hlast : ∀ hne : (x :: xs) ≠ [], isWs ((x :: xs).getLast hne) = false) :
    replLoop prev ('\n' :: ' ' :: ' ' :: ' ' :: ' ' :: ' ' :: ' ' :: ((x :: xs) ++ rest))
      = '\n' :: ' ' :: ' ' ::
          ((x :: xs) ++ replLoop ((x :: xs).getLast?.or (some ' ')) rest) := by
  rw [show ((x :: xs) ++ rest) = x :: (xs ++ rest) from rfl]
  rw [replLoop_nl6 prev x (xs ++ rest) h hx]
  rw [show x :: (xs ++ rest) = (x :: xs) ++ rest from rfl]
  rw [replLoop_midVal (x :: xs) (some ' ') rest rfl hnl hlast]

theorem isWs_getLast_of_getLast? {l : List Char} {z : Char}
    (hz : l.getLast? = some z) (hw : isWs z = false) :
    ∀ hne : l ≠ [], isWs (l.getLast hne) = false := by
  intro hne
  have h := List.getLast?_eq_getLast l hne
  rw [hz] at h
  injection h with h2
  rw [← h2]
  exact hw

/-- The full effect of the replacement on the contact template (character
level): the leading blank line disappears, every six-space indentation
loses exactly four spaces, and the trailing indented blank line disappears;
the interpolated values are copied verbatim. -/
theorem replLoop_contact_template
    (a t n k e : List Char) (dc : Char) (dt : List Char)
    (ha1 : '\n' ∉ a) (ha2 : ∀ hne : a ≠ [], isWs (a.getLast hne) = false)
    (ht1 : '\n' ∉ t) (ht2 : ∀ hne : t ≠ [], isWs (t.getLast hne) = false)
    (hn1 : '\n' ∉ n) (hn2 : ∀ hne : n ≠ [], isWs (n.getLast hne) = false)
    (hk1 : '\n' ∉ k) (hk2 : ∀ hne : k ≠ [], isWs (k.getLast hne) = false)
    (he1 : '\n' ∉ e) (he2 : ∀ hne : e ≠ [], isWs (e.getLast hne) = false)
    (hdc : isWs dc = false) (hd1 : '\n' ∉ dc :: dt)
    (hd2 : ∀ hne : (dc :: dt) ≠ [], isWs ((dc :: dt).getLast hne) = false) :
    replLoop none
      ('\n' :: ' ' :: ' ' :: ' ' :: ' ' :: ' ' :: ' ' ::
        (('お' :: ("問い合わせがありました。" : String).data) ++
          ('\n' :: ' ' :: ' ' :: ' ' :: ' ' :: ' ' :: ' ' ::
            (('P' :: ("ON DESIGNをどちらでお知りになりましたか？：" : String).data) ++
              (a ++
                ('\n' :: ' ' :: ' ' :: ' ' :: ' ' :: ' ' :: ' ' ::
                  (('お' :: ("問合せ種別：" : String).data) ++
                    (t ++
                      ('\n' :: ' ' :: ' ' :: ' ' :: ' ' :: ' ' :: ' ' ::
                        (('お' :: ("名前：" : String).data) ++
                          (n ++
                            ('\n' :: ' ' :: ' ' :: ' ' :: ' ' :: ' ' :: ' ' ::
                              (('会' :: ("社名：" : String).data) ++
                                (k ++
                                  ('\n' :: ' ' :: ' ' :: ' ' :: ' ' :: ' ' :: ' ' ::
                                    (('メ' :: ("ールアドレス：" : String).data) ++
                                      (e ++
                                        ('\n' :: ' ' :: ' ' :: ' ' :: ' ' :: ' ' :: ' ' ::
                                          (('【' :: ("お問合せ内容】" : String).data) ++
                                            ('\n' :: ' ' :: ' ' :: ' ' :: ' ' :: ' ' :: ' ' ::
                                              ((dc :: dt) ++
                                                ('\n' ::
                                                  [' ', ' ', ' ', ' ', ' ',
                                                    ' ']))))))))))))))))))))))
      = ' ' :: ' ' ::
          (('お' :: ("問い合わせがありました。" : String).data) ++
            ('\n' :: ' ' :: ' ' ::
              (('P' :: ("ON DESIGNをどちらでお知りになりましたか？：" : String).data) ++
                (a ++
                  ('\n' :: ' ' :: ' ' ::
                    (('お' :: ("問合せ種別：" : String).data) ++
                      (t ++
                        ('\n' :: ' ' :: ' ' ::
                          (('お' :: ("名前：" : String).data) ++
                            (n ++
                              ('\n' :: ' ' :: ' ' ::
                                (('会' :: ("社名：" : String).data) ++
                                  (k ++
                                    ('\n' :: ' ' :: ' ' ::
                                      (('メ' :: ("ールアドレス：" : String).data) ++
                                        (e ++
                                          ('\n' :: ' ' :: ' ' ::
                                            (('【' :: ("お問合せ内容】" : String).data) ++
                                              ('\n' :: ' ' :: ' ' ::
                                                (dc :: dt)))))))))))))))))))) := by
  rw [replLoop_start_chunk 'お' ("問い合わせがありました。" : String).data _
    (by decide) (by decide) (isWs_getLast_of_getLast? rfl (by decide))]
  rw [show (('お' :: ("問い合わせがありました。" : String).data).getLast?.or (some ' '))
      = some '。' from rfl]
  rw [replLoop_nl6_chunk (some '。') 'P'
    ("ON DESIGNをどちらでお知りになりましたか？：" : String).data _
    (by decide) (by decide) (by decide) (isWs_getLast_of_getLast? rfl (by decide))]
  rw [show (('P' :: ("ON DESIGNをどちらでお知りになりましたか？：" : String).data).getLast?.or
      (some ' ')) = some '：' from rfl]
  rw [replLoop_midVal a (some '：') _ (by decide) ha1 ha2]
  rw [replLoop_nl6_chunk (a.getLast?.or (some '：')) 'お'
    ("問合せ種別：" : String).data _
    (lineStartB_getLast_or a (some '：') ha2 (by decide))
    (by decide) (by decide) (isWs_getLast_of_getLast? rfl (by decide))]
  rw [show (('お' :: ("問合せ種別：" : String).data).getLast?.or (some ' '))
      = some '：' from rfl]
  rw [replLoop_midVal t (some '：') _ (by decide) ht1 ht2]
  rw [replLoop_nl6_chunk (t.getLast?.or (some '：')) 'お'
    ("名前：" : String).data _
    (lineStartB_getLast_or t (some '：') ht2 (by decide))
    (by decide) (by decide) (isWs_getLast_of_getLast? rfl (by decide))]
  rw [show (('お' :: ("名前：" : String).data).getLast?.or (some ' '))
      = some '：' from rfl]
  rw [replLoop_midVal n (some '：') _ (by decide) hn1 hn2]
  rw [replLoop_nl6_chunk (n.getLast?.or (some '：')) '会'
    ("社名：" : String).data _
    (lineStartB_getLast_or n (some '：') hn2 (by decide))
    (by decide) (by decide) (isWs_getLast_of_getLast? rfl (by decide))]
  rw [show (('会' :: ("社名：" : String).data).getLast?.or (some ' '))
      = some '：' from rfl]
  rw [replLoop_midVal k (some '：') _ (by decide) hk1 hk2]
  rw [replLoop_nl6_chunk (k.getLast?.or (some '：')) 'メ'
    ("ールアドレス：" : String).data _
    (lineStartB_getLast_or k (some '：') hk2 (by decide))
    (by decide) (by decide) (isWs_getLast_of_getLast? rfl (by decide))]
  rw [show (('メ' :: ("ールアドレス：" : String).data).getLast?.or (some ' '))
      = some '：' from rfl]
  rw [replLoop_midVal e (some '：') _ (by decide) he1 he2]
  rw [replLoop_nl6_chunk (e.getLast?.or (some '：')) '【'
    ("お問合せ内容】" : String).data _
    (lineStartB_getLast_or e (some '：') he2 (by decide))
    (by decide) (by decide) (isWs_getLast_of_getLast? rfl (by decide))]
  rw [show (('【' :: ("お問合せ内容】" : String).data).getLast?.or (some ' '))
      = some '】' from rfl]
  rw [replLoop_nl6_chunk (some '】') dc dt _ (by decide) hdc hd1 hd2]
  rw [replLoop_tail6 ((dc :: dt).getLast?.or (some ' '))
    (lineStartB_getLast_or (dc :: dt) (some ' ') hd2 (by decide))]
  simp

set_option maxRecDepth 8192 in
/-- String-level form of `replLoop_contact_template`: the replacement turns
the six-space-indented template into its two-space-indented counterpart,
dropping the leading blank line and the trailing indented blank line and
copying every interpolated value verbatim. -/
theorem jsReplace_contact_template (a t n k e d : String)
    (ha1 : '\n' ∉ a.data) (ha2 : ∀ hne : a.data ≠ [], isWs (a.data.getLast hne) = false)
    (ht1 : '\n' ∉ t.data) (ht2 : ∀ hne : t.data ≠ [], isWs (t.data.getLast hne) = false)
    (hn1 : '\n' ∉ n.data) (hn2 : ∀ hne : n.data ≠ [], isWs (n.data.getLast hne) = false)
    (hk1 : '\n' ∉ k.data) (hk2 : ∀ hne : k.data ≠ [], isWs (k.data.getLast hne) = false)
    (he1 : '\n' ∉ e.data) (he2 : ∀ hne : e.data ≠ [], isWs (e.data.getLast hne) = false)
    (hd0 : d.data ≠ [])
    (hdh : isWs (d.data.headD ' ') = false)
    (hd1 : '\n' ∉ d.data)
    (hd2 : ∀ hne : d.data ≠ [], isWs (d.data.getLast hne) = false) :
    jsReplace ("\n      お問い合わせがありました。\n      PON DESIGNをどちらでお知りになりましたか？：" ++ a
      ++ "\n      お問合せ種別：" ++ t ++ "\n      お名前：" ++ n ++ "\n      会社名：" ++ k
      ++ "\n      メールアドレス：" ++ e ++ "\n      【お問合せ内容】\n      " ++ d ++ "\n      ")
      = "  お問い合わせがありました。\n  PON DESIGNをどちらでお知りになりましたか？：" ++ a
      ++ "\n  お問合せ種別：" ++ t ++ "\n  お名前：" ++ n ++ "\n  会社名：" ++ k
      ++ "\n  メールアドレス：" ++ e ++ "\n  【お問合せ内容】\n  " ++ d := by
  obtain ⟨ddata⟩ := d
  cases ddata with
  | nil => exact absurd rfl hd0
  | cons dc dt =>
    have h := replLoop_contact_template a.data t.data n.data k.data e.data dc dt
      ha1 ha2 ht1 ht2 hn1 hn2 hk1 hk2 he1 he2 hdh hd1 hd2
    have hin : ("\n      お問い合わせがありました。\n      PON DESIGNをどちらでお知りになりましたか？：" ++ a
      ++ "\n      お問合せ種別：" ++ t ++ "\n      お名前：" ++ n ++ "\n      会社名：" ++ k
      ++ "\n      メールアドレス：" ++ e ++ "\n      【お問合せ内容】\n      " ++ String.mk (dc :: dt) ++ "\n      ").data
        = ('\n' :: ' ' :: ' ' :: ' ' :: ' ' :: ' ' :: ' ' :: (('お' :: ("問い合わせがありました。" : String).data) ++ ('\n' :: ' ' :: ' ' :: ' ' :: ' ' :: ' ' :: ' ' :: (('P' :: ("ON DESIGNをどちらでお知りになりましたか？：" : String).data) ++ (a.data ++ ('\n' :: ' ' :: ' ' :: ' ' :: ' ' :: ' ' :: ' ' :: (('お' :: ("問合せ種別：" : String).data) ++ (t.data ++ ('\n' :: ' ' :: ' ' :: ' ' :: ' ' :: ' ' :: ' ' :: (('お' :: ("名前：" : String).data) ++ (n.data ++ ('\n' :: ' ' :: ' ' :: ' ' :: ' ' :: ' ' :: ' ' :: (('会' :: ("社名：" : String).data) ++ (k.data ++ ('\n' :: ' ' :: ' ' :: ' ' :: ' ' :: ' ' :: ' ' :: (('メ' :: ("ールアドレス：" : String).data) ++ (e.data ++ ('\n' :: ' ' :: ' ' :: ' ' :: ' ' :: ' ' :: ' ' :: (('【' :: ("お問合せ内容】" : String).data) ++ ('\n' :: ' ' :: ' ' :: ' ' :: ' ' :: ' ' :: ' ' :: ((dc :: dt) ++ ('\n' :: [' ', ' ', ' ', ' ', ' ', ' '])))))))))))))))))))))) := by
      simp only [String.data_append, List.append_assoc]
      rfl
    have hout : ("  お問い合わせがありました。\n  PON DESIGNをどちらでお知りになりましたか？：" ++ a
      ++ "\n  お問合せ種別：" ++ t ++ "\n  お名前：" ++ n ++ "\n  会社名：" ++ k
      ++ "\n  メールアドレス：" ++ e ++ "\n  【お問合せ内容】\n  " ++ String.mk (dc :: dt)).data
        = (' ' :: ' ' :: (('お' :: ("問い合わせがありました。" : String).data) ++ ('\n' :: ' ' :: ' ' :: (('P' :: ("ON DESIGNをどちらでお知りになりましたか？：" : String).data) ++ (a.data ++ ('\n' :: ' ' :: ' ' :: (('お' :: ("問合せ種別：" : String).data) ++ (t.data ++ ('\n' :: ' ' :: ' ' :: (('お' :: ("名前：" : String).data) ++ (n.data ++ ('\n' :: ' ' :: ' ' :: (('会' :: ("社名：" : String).data) ++ (k.data ++ ('\n' :: ' ' :: ' ' :: (('メ' :: ("ールアドレス：" : String).data) ++ (e.data ++ ('\n' :: ' ' :: ' ' :: (('【' :: ("お問合せ内容】" : String).data) ++ ('\n' :: ' ' :: ' ' :: (dc :: dt))))))))))))))))))))) := by
      simp only [String.data_append, List.append_assoc]
      rfl
    show String.mk (replLoop none
      ("\n      お問い合わせがありました。\n      PON DESIGNをどちらでお知りになりましたか？：" ++ a
      ++ "\n      お問合せ種別：" ++ t ++ "\n      お名前：" ++ n ++ "\n      会社名：" ++ k
      ++ "\n      メールアドレス：" ++ e ++ "\n      【お問合せ内容】\n      " ++ String.mk (dc :: dt) ++ "\n      ").data)
      = ("  お問い合わせがありました。\n  PON DESIGNをどちらでお知りになりましたか？：" ++ a
      ++ "\n  お問合せ種別：" ++ t ++ "\n  お名前：" ++ n ++ "\n  会社名：" ++ k
      ++ "\n  メールアドレス：" ++ e ++ "\n  【お問合せ内容】\n  " ++ String.mk (dc :: dt))
    rw [hin, h, ← hout]

/-! ### Claim C5: shape of the serialized payload -/

/-- C5 (amended).  The payload is the JSON object with exactly the one field
`text`; its value is the fixed multi-line template interpolated with the
collected values, where the replacement removes the leading blank line,
each line's trailing whitespace and exactly four of the six indentation
spaces — so every line of the payload text begins with two spaces rather
than no whitespace. -/
theorem payload_template_shape (c : Collected)
    (ha1 : '\n' ∉ c.adv.data)
    (ha2 : ∀ hne : c.adv.data ≠ [], isWs (c.adv.data.getLast hne) = false)
    (ht1 : '\n' ∉ c.type.data)
    (ht2 : ∀ hne : c.type.data ≠ [], isWs (c.type.data.getLast hne) = false)
    (hn1 : '\n' ∉ c.name.data)
    (hn2 : ∀ hne : c.name.data ≠ [], isWs (c.name.data.getLast hne) = false)
    (hk0 : c.companyName ≠ "")
    (hk1 : '\n' ∉ c.companyName.data)
    (hk2 : ∀ hne : c.companyName.data ≠ [], isWs (c.companyName.data.getLast hne) = false)
    (he1 : '\n' ∉ c.email.data)
    (he2 : ∀ hne : c.email.data ≠ [], isWs (c.email.data.getLast hne) = false)
    (hd0 : c.detail.data ≠ [])
    (hdh : isWs (c.detail.data.headD ' ') = false)
    (hd1 : '\n' ∉ c.detail.data)
    (hd2 : ∀ hne : c.detail.data ≠ [], isWs (c.detail.data.getLast hne) = false) :
    buildText c
      = "  お問い合わせがありました。\n  PON DESIGNをどちらでお知りになりましたか？：" ++ c.adv
        ++ "\n  お問合せ種別：" ++ c.type ++ "\n  お名前：" ++ c.name
        ++ "\n  会社名：" ++ c.companyName ++ "\n  メールアドレス：" ++ c.email
        ++ "\n  【お問合せ内容】\n  " ++ c.detail
  ∧ (fetchValuesRequest c).body = "\x7b\"text\":" ++ jsonQuote (buildText c) ++ "\x7d" := by
  constructor
  · unfold buildText rawText
    rw [if_neg (show ¬(c.companyName == "") = true by simp [hk0])]
    exact jsReplace_contact_template c.adv c.type c.name c.companyName c.email c.detail
      ha1 ha2 ht1 ht2 hn1 hn2 hk1 hk2 he1 he2 hd0 hdh hd1 hd2
  · rfl

set_option maxRecDepth 100000 in
/-- Witness for `payload_template_shape` at the end-to-end scenario values. -/
theorem payload_template_shape_witness :
    buildText collectedC
      = "  お問い合わせがありました。\n  PON DESIGNをどちらでお知りになりましたか？：ブログ\n  お問合せ種別：お見積りのご依頼\n  お名前：山田太郎\n  会社名：ACME\n  メールアドレス：test@example.com\n  【お問合せ内容】\n  hello" := by
  rw [(payload_template_shape collectedC (by decide) (isWs_getLast_of_getLast? rfl (by decide))
    (by decide) (isWs_getLast_of_getLast? rfl (by decide))
    (by decide) (isWs_getLast_of_getLast? rfl (by decide))
    (by decide) (by decide) (isWs_getLast_of_getLast? rfl (by decide))
    (by decide) (isWs_getLast_of_getLast? rfl (by decide))
    (by decide) (by decide) (by decide)
    (isWs_getLast_of_getLast? rfl (by decide))).1]
  decide

set_option maxRecDepth 100000 in
/-- Counterexample to C5 as stated: the payload text of the end-to-end
scenario begins with two spaces, so its first line begins with whitespace. -/
theorem payload_leading_whitespace_counterexample :
    (buildText collectedC).data.take 2 = [' ', ' '] := by
  decide

/-! ### Claim C6: the company-name line -/

/-- C6 (amended).  An empty company-name value puts the placeholder
`記入なし` on the company line; a non-empty value is shown literally — the
line trim removes its trailing whitespace but preserves any leading
whitespace inside the value (so the shown value is the literal value, not
its trimmed form). -/
theorem company_line_behavior (c : Collected)
    (ha1 : '\n' ∉ c.adv.data)
    (ha2 : ∀ hne : c.adv.data ≠ [], isWs (c.adv.data.getLast hne) = false)
    (ht1 : '\n' ∉ c.type.data)
    (ht2 : ∀ hne : c.type.data ≠ [], isWs (c.type.data.getLast hne) = false)
    (hn1 : '\n' ∉ c.name.data)
    (hn2 : ∀ hne : c.name.data ≠ [], isWs (c.name.data.getLast hne) = false)
    (he1 : '\n' ∉ c.email.data)
    (he2 : ∀ hne : c.email.data ≠ [], isWs (c.email.data.getLast hne) = false)
    (hd0 : c.detail.data ≠ [])
    (hdh : isWs (c.detail.data.headD ' ') = false)
    (hd1 : '\n' ∉ c.detail.data)
    (hd2 : ∀ hne : c.detail.data ≠ [], isWs (c.detail.data.getLast hne) = false) :
    (c.companyName = "" →
      buildText c
        = "  お問い合わせがありました。\n  PON DESIGNをどちらでお知りになりましたか？：" ++ c.adv
          ++ "\n  お問合せ種別：" ++ c.type ++ "\n  お名前：" ++ c.name
          ++ "\n  会社名：" ++ "記入なし" ++ "\n  メールアドレス：" ++ c.email
          ++ "\n  【お問合せ内容】\n  " ++ c.detail)
  ∧ (c.companyName ≠ "" → '\n' ∉ c.companyName.data →
      (∀ hne : c.companyName.data ≠ [], isWs (c.companyName.data.getLast hne) = false) →
      buildText c
        = "  お問い合わせがありました。\n  PON DESIGNをどちらでお知りになりましたか？：" ++ c.adv
          ++ "\n  お問合せ種別：" ++ c.type ++ "\n  お名前：" ++ c.name
          ++ "\n  会社名：" ++ c.companyName ++ "\n  メールアドレス：" ++ c.email
          ++ "\n  【お問合せ内容】\n  " ++ c.detail) := by
  constructor
  · intro hk0
    unfold buildText rawText
    rw [if_pos (show (c.companyName == "") = true by simp [hk0])]
    exact jsReplace_contact_template c.adv c.type c.name "記入なし" c.email c.detail
      ha1 ha2 ht1 ht2 hn1 hn2 (by decide) (isWs_getLast_of_getLast? rfl (by decide))
      he1 he2 hd0 hdh hd1 hd2
  · intro hk0 hk1 hk2
    unfold buildText rawText
    rw [if_neg (show ¬(c.companyName == "") = true by simp [hk0])]
    exact jsReplace_contact_template c.adv c.type c.name c.companyName c.email c.detail
      ha1 ha2 ht1 ht2 hn1 hn2 hk1 hk2 he1 he2 hd0 hdh hd1 hd2

set_option maxRecDepth 100000 in
/-- Witness for `company_line_behavior`: with an empty company name the
payload shows the placeholder. -/
theorem company_line_behavior_witness :
    buildText { collectedC with companyName := "" }
      = "  お問い合わせがありました。\n  PON DESIGNをどちらでお知りになりましたか？：ブログ\n  お問合せ種別：お見積りのご依頼\n  お名前：山田太郎\n  会社名：記入なし\n  メールアドレス：test@example.com\n  【お問合せ内容】\n  hello" := by
  rw [(company_line_behavior { collectedC with companyName := "" }
    (by decide) (isWs_getLast_of_getLast? rfl (by decide))
    (by decide) (isWs_getLast_of_getLast? rfl (by decide))
    (by decide) (isWs_getLast_of_getLast? rfl (by decide))
    (by decide) (isWs_getLast_of_getLast? rfl (by decide))
    (by decide) (by decide) (by decide)
    (isWs_getLast_of_getLast? rfl (by decide))).1 rfl]
  decide

set_option maxRecDepth 100000 in
/-- Counterexample to C6 as stated: with company name `" ABC"` the payload
shows the literal value with its leading space, not the trimmed value. -/
theorem company_trimming_counterexample :
    hasSub "会社名： ABC".data (buildText collectedD).data = true
  ∧ hasSub "会社名：ABC".data (buildText collectedD).data = false
  ∧ jsTrim " ABC" = "ABC" := by
  refine ⟨by decide, by decide, by decide⟩

/-! ### Claim C2: payload labels versus checked radios (code bug) -/

set_option maxRecDepth 100000 in
/-- C2 evaluated at the failing input `contactFormC` (inquiry type `radio02`
checked, referral source `blog` checked): the collected inquiry label is
`その他` — the label of the last inquiry radio in enumeration order,
regardless of which is checked — and the referral label stays empty because
every radio is consumed by the type-based case before the name-based `adv`
case can run.  The labels the claim requires (`お見積りのご依頼`, `ブログ`)
do not occur anywhere in the payload text. -/
theorem inquiry_labels_code_bug :
    getValues contactFormC
      = { type := "その他", name := "山田太郎", companyName := "ACME",
          email := "test@example.com", detail := "hello", adv := "" }
  ∧ hasSub "お見積りのご依頼".data (buildText (getValues contactFormC)).data = false
  ∧ hasSub "ブログ".data (buildText (getValues contactFormC)).data = false
  ∧ hasSub "お問合せ種別：その他".data (buildText (getValues contactFormC)).data = true
  ∧ hasSub "PON DESIGNをどちらでお知りになりましたか？：\n".data
      (buildText (getValues contactFormC)).data = true := by
  refine ⟨by decide, by decide, by decide, by decide, by decide⟩

/-- Witness for `getValues_checked_blind`: the two concrete forms differing
only in which radios are checked collect identical values; the collected
inquiry label is `その他` (from the last radio, `radio04`); a radio named
`adv` leaves the referral field untouched. -/
theorem getValues_checked_blind_witness :
    getValues contactFormC = getValues contactFormD
  ∧ (getValues contactFormC).type = "その他"
  ∧ (getValuesStep {} { type := "radio", name := "adv", value := "sns" }).adv = "" := by
  refine ⟨getValues_checked_blind.1 contactFormC contactFormD (by decide), ?_, ?_⟩
  · rw [getValues_checked_blind.2.1 contactFormC]
    decide
  · exact (getValues_checked_blind.2.2 {} { type := "radio", name := "adv", value := "sns" }
      rfl).2.2.2.2

end FormApp
